import Mathlib

/-!
Verification of the reconciliation-and-indicator engine of the factory
telemetry backend (`myapp/data_analysis.py` with constants from
`myapp/utils.py`).

Modelling conventions:
* Dates are integers counting calendar days; clock times are integer seconds
  of the day; a combined timestamp (`data_hora`) is `day * 86400 + seconds`.
  The wall-clock instant (`pd.Timestamp.now()` / `datetime.now()`, which the
  source reads while processing) is passed explicitly as a `now : ℤ` argument
  in the same seconds scale, so `now.round("s")` is the identity.
* Tabular data is a list of structures, one structure field per column;
  nullable columns are `Option`-valued.  Missing values introduced by joins
  (`NaN`) and by SQL nulls are both `none`.
* Float arithmetic of the source is modelled with exact `ℚ` arithmetic; the
  division-by-zero conventions of IEEE floats (`0/0 = NaN`, `x/0 = ±inf` and
  the comparisons `NaN < c = false`, `-inf < c = true`) are made explicit at
  each place the source can divide by zero.
* `numpy`/`pandas` `round` is round-half-to-even; it is modelled exactly.
-/

namespace Projeto

/-- Round-half-to-even of `s` seconds to whole minutes, as
`((end - start).dt.total_seconds() / 60).round()` computes it. -/
def roundMin (s : ℤ) : ℤ :=
  let d := s.fdiv 60
  let r := s.fmod 60
  if r < 30 then d else if 30 < r then d + 1 else if d % 2 = 0 then d else d + 1

/-- Round-half-to-even of a rational to an integer (`numpy` banker's rounding,
used by `round(x, 0)` and `Series.round()`). -/
def roundHalfEven (q : ℚ) : ℤ :=
  let f := ⌊q⌋
  if q - f < 1/2 then f
  else if (1:ℚ)/2 < q - f then f + 1
  else if f % 2 = 0 then f else f + 1

/-- Models `Series.round(3)`: round to three decimal places, half to even. -/
def round3 (q : ℚ) : ℚ := (roundHalfEven (q * 1000) : ℚ) / 1000

/-- Lower-case a character code point, ASCII range only (enough for the
reason/problem/cause vocabulary used in the discount tables). -/
def lowerCode (c : Char) : ℕ :=
  if 65 ≤ c.toNat ∧ c.toNat ≤ 90 then c.toNat + 32 else c.toNat

/-- Case-insensitive equality of characters (ASCII case folding). -/
def charEqCI (a b : Char) : Bool := lowerCode a = lowerCode b

/-- True when `needle` occurs case-insensitively as a prefix of `hay`. -/
def preCI : List Char → List Char → Bool
  | [], _ => true
  | _ :: _, [] => false
  | a :: as, b :: bs => charEqCI a b && preCI as bs

/-- True when `needle` occurs case-insensitively anywhere inside `hay`
(`Series.str.contains(needle, case=False)` for the plain-text keys of the
discount tables, none of which contains a regex metacharacter). -/
def containsCI (hay needle : List Char) : Bool :=
  match hay with
  | [] => preCI needle []
  | _ :: t => preCI needle hay || containsCI t needle

/-- Case-insensitive substring test on strings. -/
def strContainsCI (hay needle : String) : Bool := containsCI hay.data needle.data

/-- True when `needle` is a prefix of `hay` (case-sensitive). -/
def preCS : List Char → List Char → Bool
  | [], _ => true
  | _ :: _, [] => false
  | a :: as, b :: bs => (a = b) && preCS as bs

/-- True when `needle` occurs anywhere inside `hay` (case-sensitive). -/
def containsCS (hay needle : List Char) : Bool :=
  match hay with
  | [] => preCS needle []
  | _ :: t => preCS needle hay || containsCS t needle

/-- Case-sensitive substring test (`Series.str.contains` with default case). -/
def strContainsCS (hay needle : String) : Bool := containsCS hay.data needle.data

/-- Forward fill of a nullable column, carrying the last non-null value. -/
def ffillFrom (last : Option α) : List (Option α) → List (Option α)
  | [] => []
  | none :: t => last :: ffillFrom last t
  | some a :: t => some a :: ffillFrom (some a) t

/-- Models `Series.ffill().bfill()` inside one group: each null takes the closest
preceding non-null value, else the closest following one. -/
def ffillBfill (l : List (Option α)) : List (Option α) :=
  (ffillFrom none (ffillFrom none l).reverse).reverse

/-- Stable ascending sort (insertion sort); `le` must be total. -/
def insertSorted (le : α → α → Bool) (a : α) : List α → List α
  | [] => [a]
  | b :: t => if le b a then b :: insertSorted le a t else a :: b :: t

/-- Stable sort used to model `DataFrame.sort_values` (key ties keep a
deterministic order; only the keyed order is observable downstream). -/
def sortBy (le : α → α → Bool) (l : List α) : List α :=
  l.foldl (fun acc a => insertSorted le a acc) []

/-- Lexicographic byte order on strings (pandas sorts `object` columns by
Python string comparison, i.e. code-point order). -/
def strLeData : List Char → List Char → Bool
  | [], _ => true
  | _ :: _, [] => false
  | a :: as, b :: bs =>
    if a.toNat < b.toNat then true
    else if b.toNat < a.toNat then false
    else strLeData as bs

def strLe (a b : String) : Bool := strLeData a.data b.data

/-- Quality event row (`qualidade_ihm` feed): the time is the raw string the
engine still has to parse.  The two tray counters are physically integer
counts (persisted as integers in `QualProd`). -/
structure QualRow where
  linha : ℤ
  maquina_id : String
  data_registro : ℤ
  hora_registro : String
  bdj_vazias : Option ℤ
  bdj_retrabalho : Option ℤ
deriving DecidableEq, Inhabited

/-- Production row (`maquinainfo/production` feed). -/
structure ProdRow where
  linha : ℤ
  maquina_id : String
  data_registro : ℤ
  turno : String
  produto : String
  total_ciclos : ℤ
  total_produzido_sensor : ℤ
deriving DecidableEq, Inhabited

/-- Output row of `join_qual_prod` (the `analysis_production` table). -/
structure QualProdRow where
  linha : ℤ
  maquina_id : String
  data_registro : ℤ
  turno : String
  produto : String
  total_ciclos : ℤ
  total_produzido_sensor : ℤ
  bdj_vazias : ℤ
  bdj_retrabalho : ℤ
  total_produzido : ℤ
deriving DecidableEq, Inhabited

/-- Parse a list of decimal digit characters. -/
def digitsToNat : List Char → Option ℕ
  | [] => none
  | l => l.foldl (fun acc c =>
      acc.bind fun n =>
        if 48 ≤ c.toNat ∧ c.toNat ≤ 57 then some (n * 10 + (c.toNat - 48)) else none)
      (some 0)

/-- Split a character list at a separator character. -/
def splitOnChar (sep : Char) : List Char → List (List Char)
  | [] => [[]]
  | c :: t =>
    let r := splitOnChar sep t
    if c = sep then [] :: r
    else match r with
      | [] => [[c]]
      | h :: t' => (c :: h) :: t'

/-- Models `clean_hora_registro`: strip a fractional-seconds suffix, then parse
`"%H:%M:%S"`; a value that fails to parse yields `none` (the source catches
`ValueError` and returns `None`).  The result is seconds of the day. -/
def cleanHoraRegistro (s : String) : Option ℤ :=
  let core := (splitOnChar '.' s.data).headD []
  match splitOnChar ':' core with
  | [h, m, sec] =>
    match digitsToNat h, digitsToNat m, digitsToNat sec with
    | some hn, some mn, some sn =>
      if h.length ≤ 2 ∧ m.length ≤ 2 ∧ sec.length ≤ 2 ∧ hn ≤ 23 ∧ mn ≤ 59 ∧ sn ≤ 59
      then some ((hn : ℤ) * 3600 + (mn : ℤ) * 60 + (sn : ℤ))
      else none
    | _, _, _ => none
  | _ => none

/-- Shift of a time of day: `hour // 8` mapped through
`{0: "NOT", 1: "MAT", 2: "VES"}`. -/
def turnoOfSecs (t : ℤ) : String :=
  let band := (t.fdiv 3600).fdiv 8
  if band = 0 then "NOT" else if band = 1 then "MAT" else "VES"

/-- Aggregated quality counts per `(linha, maquina_id, data_registro, turno)`. -/
structure QualAgg where
  linha : ℤ
  maquina_id : String
  data_registro : ℤ
  turno : String
  bdj_vazias : ℤ
  bdj_retrabalho : ℤ
deriving DecidableEq, Inhabited

/-- Add one quality row into the per-key aggregation (`groupby(...).sum()`;
`NaN` counters contribute `0` because pandas sums skip missing values, and
`.round(3)` is the identity on integer counts). -/
def addQual (acc : List QualAgg) (q : QualAgg) : List QualAgg :=
  match acc with
  | [] => [q]
  | a :: t =>
    if a.linha = q.linha ∧ a.maquina_id = q.maquina_id ∧
        a.data_registro = q.data_registro ∧ a.turno = q.turno then
      { a with bdj_vazias := a.bdj_vazias + q.bdj_vazias,
               bdj_retrabalho := a.bdj_retrabalho + q.bdj_retrabalho } :: t
    else a :: addQual t q

/-- The sensor-acceptance test
`(total_ciclos - total_produzido_sensor) / total_ciclos < 0.05`.
The float division of the source gives, at `total_ciclos = 0`: `NaN` when the
numerator is `0` (`NaN < 0.05` is false), `-inf` when the sensor count is
positive (true), `+inf` when it is negative (false); the `if` spells those
cases out, and the generic case is exact rational arithmetic. -/
def sensorMask (c s : ℤ) : Bool :=
  if c = 0 then decide (0 < s)
  else decide (((c : ℚ) - (s : ℚ)) / (c : ℚ) < 1/20)

/-- The reconciled production count (`np.where(mask, sensor, ciclos)`). -/
def totalProduzido (c s v r : ℤ) : ℤ :=
  if sensorMask c s then s - r else c - v - r

/-- Final ordering key of `join_qual_prod`:
`sort_values(by=["data_registro", "linha", "turno"])`. -/
def qpLe (a b : QualProdRow) : Bool :=
  if a.data_registro ≠ b.data_registro then decide (a.data_registro < b.data_registro)
  else if a.linha ≠ b.linha then decide (a.linha < b.linha)
  else strLe a.turno b.turno

/-- One quality row turned into its aggregation seed: the shift is derived
from the parsed time (`qual["hora_registro"].apply(lambda x: x.hour) // 8`). -/
def toQualAgg (q : QualRow) : QualAgg :=
  { linha := q.linha, maquina_id := q.maquina_id,
    data_registro := q.data_registro,
    turno := turnoOfSecs ((cleanHoraRegistro q.hora_registro).getD 0),
    bdj_vazias := q.bdj_vazias.getD 0,
    bdj_retrabalho := q.bdj_retrabalho.getD 0 }

/-- Left-merge of one production row with the aggregated quality counts
(`pd.merge(..., how="left")` followed by `fillna(0)`), plus the reconciled
`total_produzido` column. -/
def mergeProdRow (agg : List QualAgg) (p : ProdRow) : QualProdRow :=
  let m := agg.find? fun a =>
    decide (a.linha = p.linha) && decide (a.maquina_id = p.maquina_id) &&
    decide (a.data_registro = p.data_registro) && decide (a.turno = p.turno)
  let v := (m.map (·.bdj_vazias)).getD 0
  let r := (m.map (·.bdj_retrabalho)).getD 0
  { linha := p.linha, maquina_id := p.maquina_id,
    data_registro := p.data_registro, turno := p.turno,
    produto := p.produto, total_ciclos := p.total_ciclos,
    total_produzido_sensor := p.total_produzido_sensor,
    bdj_vazias := v, bdj_retrabalho := r,
    total_produzido :=
      totalProduzido p.total_ciclos p.total_produzido_sensor v r }

/-- Models `join_qual_prod`.  The result is `none` when the call raises: after
`clean_hora_registro` maps an unparsable time to `None`, the very next step
`qual["hora_registro"].apply(lambda x: x.hour)` evaluates `None.hour` and
raises `AttributeError`, aborting the whole call. -/
def joinQualProd (prod : List ProdRow) (qual : List QualRow) :
    Option (List QualProdRow) :=
  if (qual.map fun q => cleanHoraRegistro q.hora_registro).any (·.isNone) then none
  else
    some (sortBy qpLe
      (prod.map (mergeProdRow ((qual.map toQualAgg).foldl addQual []))))

/-- Production row of the spec's sensor-reconciliation instance. -/
def prodSpec : ProdRow :=
  { linha := 1, maquina_id := "M1", data_registro := 20000, turno := "MAT",
    produto := "PAO", total_ciclos := 100, total_produzido_sensor := 97 }

/-- Quality row with 3 empty and 2 rework trays at 12:00 (morning shift). -/
def qualSpec : QualRow :=
  { linha := 1, maquina_id := "M1", data_registro := 20000,
    hora_registro := "12:00:00", bdj_vazias := some 3, bdj_retrabalho := some 2 }

/-- The output row of the spec's 100/97/2/3 instance. -/
def rowSpec : QualProdRow :=
  { linha := 1, maquina_id := "M1", data_registro := 20000,
    turno := "MAT", produto := "PAO", total_ciclos := 100,
    total_produzido_sensor := 97, bdj_vazias := 3, bdj_retrabalho := 2,
    total_produzido := 95 }

/-- Production row whose sensor over-counts by 100%. -/
def prodOver : ProdRow :=
  { linha := 1, maquina_id := "M1", data_registro := 20000, turno := "MAT",
    produto := "PAO", total_ciclos := 100, total_produzido_sensor := 200 }

/-- Quality row whose time value cannot be parsed. -/
def qualBadTime : QualRow :=
  { linha := 1, maquina_id := "M1", data_registro := 20000,
    hora_registro := "not-a-time", bdj_vazias := some 1, bdj_retrabalho := some 0 }

/-- Production row with no cycles and no sensor count. -/
def prodZero : ProdRow :=
  { linha := 2, maquina_id := "M2", data_registro := 20000, turno := "VES",
    produto := "PAO", total_ciclos := 0, total_produzido_sensor := 0 }

/-- Quality row for the zero-production shift: 1 empty and 2 rework trays,
registered at 20:00 (evening shift). -/
def qualZero : QualRow :=
  { linha := 2, maquina_id := "M2", data_registro := 20000,
    hora_registro := "20:00:00", bdj_vazias := some 1, bdj_retrabalho := some 2 }

/-- The single output row of the zero-production run. -/
def rowZero : QualProdRow :=
  ((joinQualProd [prodZero] [qualZero]).getD []).headD default

inductive IndicatorType where
  | efficiency
  | performance
  | repair
deriving DecidableEq

/-- Models `DESC_EFF` of `utils.py`; a Python dict keeps insertion order, so the
table is a key-value list. -/
def DESC_EFF : List (String × ℤ) :=
  [("Troca de Sabor", 15), ("Troca de Produto", 35), ("Refeição", 60),
   ("Café e Ginástica Laboral", 10), ("Treinamento", 60)]

def DESC_PERF : List (String × ℤ) :=
  [("Troca de Sabor", 15), ("Troca de Produto", 35), ("Refeição", 60),
   ("Café e Ginástica Laboral", 10), ("Treinamento", 60)]

def DESC_REP : List (String × ℤ) := [("Troca de Produto", 35)]

def NOT_EFF : List String := ["Sem Produção", "Backup"]

def NOT_PERF : List String :=
  ["Sem Produção", "Backup", "Limpeza para parada de Fábrica",
   "Risco de Contaminação", "Parâmetros de Qualidade", "Manutenção"]

def AF_REP : List String := ["Manutenção", "Troca de Produtos"]

def TEMPO_AJUSTE : ℤ := 5

/-- Models `CICLOS_ESPERADOS = 11.2` cycles per minute. -/
def CICLOS_ESPERADOS : ℚ := 56/5

def CICLOS_BOLINHA : ℚ := 7

/-- Interval-table row as consumed by `create_indicators` (the persisted
`analysis_info_ihm` columns it reads). -/
structure InfoRow where
  maquina_id : String
  linha : ℤ
  data_registro : ℤ
  turno : String
  status : String
  motivo : Option String
  problema : Option String
  causa : Option String
  tempo : ℤ
deriving DecidableEq, Inhabited

/-- Models `df[["motivo", "problema", "causa"]].apply(lambda x: x.isin(skip).any(), axis=1)`:
exact membership of any of the three columns in the skip list (`NaN` never
matches). -/
def skipMatch (skip : List String) (r : InfoRow) : Bool :=
  [r.motivo, r.problema, r.causa].any fun f =>
    match f with
    | some s => skip.contains s
    | none => false

/-- A discount key matches a row when `motivo`, `problema` or `causa`
contains the key case-insensitively (`str.contains(key, case=False, na=False)`). -/
def rowMatchesKey (r : InfoRow) (key : String) : Bool :=
  [r.motivo, r.problema, r.causa].any fun f =>
    match f with
    | some s => strContainsCI s key
    | none => false

/-- Initial `desconto`: `0`, except that rows matching the skip list get the
full duration (or `0` for the repair indicator). -/
def initDesconto (skip : List String) (ind : IndicatorType) (r : InfoRow) : ℤ :=
  if skipMatch skip r then (if ind = IndicatorType.repair then 0 else r.tempo) else 0

/-- Row population retained per indicator: efficiency keeps everything,
performance drops skip-matching rows, repair keeps only skip-matching rows. -/
def population (ind : IndicatorType) (skip : List String) (df : List InfoRow) :
    List InfoRow :=
  match ind with
  | IndicatorType.efficiency => df
  | IndicatorType.performance => df.filter fun r => ¬ skipMatch skip r
  | IndicatorType.repair => df.filter fun r => skipMatch skip r

/-- The `desconto` a row holds after the `for key, value in desc_dict.items()`
loop and before the clamp to `tempo`: each matching key OVERWRITES the
previous value (including the exemption-granted initial value). -/
def descontoPreClamp (desc : List (String × ℤ)) (skip : List String)
    (ind : IndicatorType) (r : InfoRow) : ℤ :=
  desc.foldl (fun acc kv => if rowMatchesKey r kv.1 then kv.2 else acc)
    (initDesconto skip ind r)

/-- One stoppage row after `__calculate_discount_time`: clamped discount and
surplus, keyed by the aggregation columns. -/
structure DiscRow where
  maquina_id : String
  linha : ℤ
  data_registro : ℤ
  turno : String
  tempo : ℤ
  desconto : ℤ
  excedente : ℤ
deriving DecidableEq, Inhabited

def calcDiscountRow (desc : List (String × ℤ)) (skip : List String)
    (ind : IndicatorType) (r : InfoRow) : DiscRow :=
  let pre := descontoPreClamp desc skip ind r
  let d := min pre r.tempo
  { maquina_id := r.maquina_id, linha := r.linha,
    data_registro := r.data_registro, turno := r.turno, tempo := r.tempo,
    desconto := d, excedente := max (r.tempo - d) 0 }

/-- Models `__calculate_discount_time`. -/
def calculateDiscountTime (df : List InfoRow) (desc : List (String × ℤ))
    (skip : List String) (ind : IndicatorType) : List DiscRow :=
  (population ind skip df).map (calcDiscountRow desc skip ind)

/-- Models `groupby(["maquina_id", "linha", "data_registro", "turno"]).agg(sum)`. -/
def addStop (acc : List DiscRow) (d : DiscRow) : List DiscRow :=
  match acc with
  | [] => [d]
  | a :: t =>
    if a.maquina_id = d.maquina_id ∧ a.linha = d.linha ∧
        a.data_registro = d.data_registro ∧ a.turno = d.turno then
      { a with tempo := a.tempo + d.tempo, desconto := a.desconto + d.desconto,
               excedente := a.excedente + d.excedente } :: t
    else a :: addStop t d

/-- The full-shift scheduled-stop flags kept aside for the non-efficiency
indicators: `(data_registro, turno, linha)` of stop rows whose `causa` is
"Sem Produção" or "Backup" with `tempo ≥ 478`. -/
def paradasProgramadas (stops : List InfoRow) : List (ℤ × String × ℤ) :=
  (stops.filter fun r =>
      (r.causa = some "Sem Produção" ∨ r.causa = some "Backup") ∧ 478 ≤ r.tempo).map
    fun r => (r.data_registro, r.turno, r.linha)

def nowDay (now : ℤ) : ℤ := now.fdiv 86400

def nowHour (now : ℤ) : ℤ := (now.fmod 86400).fdiv 3600

/-- Models `__get_elapsed_time`: minutes since the nominal shift start when the
wall-clock hour is inside that shift's window, else a full 480-minute shift. -/
def getElapsedTime (now : ℤ) (turno : String) : ℚ :=
  if turno = "MAT" ∧ 8 ≤ nowHour now ∧ nowHour now < 16 then
    ((now - (nowDay now * 86400 + 8 * 3600) : ℤ) : ℚ) / 60
  else if turno = "VES" ∧ 16 ≤ nowHour now ∧ nowHour now < 24 then
    ((now - (nowDay now * 86400 + 16 * 3600) : ℤ) : ℚ) / 60
  else if turno = "NOT" ∧ 0 ≤ nowHour now ∧ nowHour now < 8 then
    ((now - nowDay now * 86400 : ℤ) : ℚ) / 60
  else 480

/-- Models `__get_expected_production_time` for one row:
`max(1, floor(elapsed − desconto))` on the current calendar day, else
`max(1, 480 − desconto)`. -/
def tempoEsperado (now : ℤ) (turno : String) (dataRegistro desconto : ℤ) : ℤ :=
  max 1 (if dataRegistro = nowDay now
         then ⌊getElapsedTime now turno - (desconto : ℚ)⌋
         else 480 - desconto)

/-- Production row merged with the aggregated stop times (plus the expected
production time column). -/
structure IndMergeRow where
  maquina_id : String
  linha : ℤ
  data_registro : ℤ
  turno : String
  produto : String
  total_produzido : ℤ
  tempo : ℤ
  desconto : ℤ
  excedente : ℤ
  tempo_esperado : ℤ
deriving DecidableEq, Inhabited

/-- Output row of `create_indicators`.  `producao` holds
`(total_produzido, producao_esperada)` and is populated only for the
efficiency indicator (the other indicators do not emit those columns);
`valor = none` models a `NaN` indicator value. -/
structure IndRow where
  fabrica : ℤ
  linha : ℤ
  maquina_id : String
  turno : String
  data_registro : ℤ
  tempo : ℤ
  desconto : ℤ
  excedente : ℤ
  tempo_esperado : ℤ
  producao : Option (ℤ × ℤ)
  valor : Option ℚ
deriving DecidableEq, Inhabited

/-- Models `__eff_adjust` on one row, returning
`(producao_esperada, tempo_esperado, eficiencia)`.  In the float original,
`total_produzido / 0` gives `±inf` or `NaN`, which `replace`/`fillna` turn
into `0`; that is the `pe = 0` branch of `val0`. -/
def effAdjustRow (r : IndMergeRow) : ℤ × ℤ × Option ℚ :=
  let bol := strContainsCS r.produto "BOL "
  let pe : ℤ := roundHalfEven
    ((r.tempo_esperado : ℚ) * (CICLOS_BOLINHA * 2) * (if bol then 1 else 0) +
     (r.tempo_esperado : ℚ) * (CICLOS_ESPERADOS * 2) * (if bol then 0 else 1))
  let val0 : ℚ := if pe = 0 then 0 else round3 ((r.total_produzido : ℚ) / (pe : ℚ))
  let val1 : Option ℚ := if pe = 0 ∧ val0 = 0 then none else some val0
  let val2 : Option ℚ := val1.map fun v => if v < 0 then 0 else v
  if r.tempo_esperado < 10 then (0, 0, none) else (pe, r.tempo_esperado, val2)

/-- Models `__adjust` (performance and repair): the indicator ratio, then the
left-merge with the scheduled-stop flags, which nulls the value and zeroes
the expected time on every flagged `(data, turno, linha)` key — and, being a
left merge with possibly duplicated flag keys, duplicates matched rows. -/
def adjustPerfRep (paradas : List (ℤ × String × ℤ)) (rows : List IndMergeRow) :
    List (IndMergeRow × ℤ × Option ℚ) :=
  rows.flatMap fun r =>
    let val0 : Option ℚ := some (round3 ((r.excedente : ℚ) / (r.tempo_esperado : ℚ)))
    let ms := paradas.filter fun k =>
      decide (k.1 = r.data_registro) && decide (k.2.1 = r.turno) && decide (k.2.2 = r.linha)
    if ms.isEmpty then [(r, r.tempo_esperado, val0)]
    else ms.map fun _ => (r, 0, (none : Option ℚ))

/-- Assemble one output row (`fabrica` recomputed from `linha`, integer casts
are identities on the integer model). -/
def mkIndOut (r : IndMergeRow) (te : ℤ) (producao : Option (ℤ × ℤ))
    (v : Option ℚ) : IndRow :=
  { fabrica := if 1 ≤ r.linha ∧ r.linha ≤ 9 then 1 else 2, linha := r.linha,
    maquina_id := r.maquina_id, turno := r.turno,
    data_registro := r.data_registro, tempo := r.tempo, desconto := r.desconto,
    excedente := r.excedente, tempo_esperado := te, producao := producao,
    valor := v }

/-- Models `create_indicators`: filter stops, compute discounts, aggregate, merge
onto production, compute the expected time, then the per-indicator
adjustment. -/
def createIndicators (info : List InfoRow) (prod : List QualProdRow)
    (ind : IndicatorType) (now : ℤ) : List IndRow :=
  let stops := info.filter fun r => decide (r.status = "parada")
  let desc := match ind with
    | IndicatorType.efficiency => DESC_EFF
    | IndicatorType.performance => DESC_PERF
    | IndicatorType.repair => DESC_REP
  let skip := match ind with
    | IndicatorType.efficiency => NOT_EFF
    | IndicatorType.performance => NOT_PERF
    | IndicatorType.repair => AF_REP
  let paradas := if ind = IndicatorType.efficiency then [] else paradasProgramadas stops
  let aggs := (calculateDiscountTime stops desc skip ind).foldl addStop []
  let merged := prod.map fun p =>
    let m := aggs.find? fun a =>
      decide (a.maquina_id = p.maquina_id) && decide (a.linha = p.linha) &&
      decide (a.data_registro = p.data_registro) && decide (a.turno = p.turno)
    let d := (m.map (·.desconto)).getD 0
    { maquina_id := p.maquina_id, linha := p.linha,
      data_registro := p.data_registro, turno := p.turno, produto := p.produto,
      total_produzido := p.total_produzido,
      tempo := (m.map (·.tempo)).getD 0, desconto := d,
      excedente := (m.map (·.excedente)).getD 0,
      tempo_esperado := tempoEsperado now p.turno p.data_registro d : IndMergeRow }
  match ind with
  | IndicatorType.efficiency =>
    merged.map fun r =>
      let a := effAdjustRow r
      mkIndOut r a.2.1 (some (r.total_produzido, a.1)) a.2.2
  | IndicatorType.performance =>
    (adjustPerfRep paradas merged).map fun x => mkIndOut x.1 x.2.1 none x.2.2
  | IndicatorType.repair =>
    (adjustPerfRep paradas merged).map fun x => mkIndOut x.1 x.2.1 none x.2.2

/-- Stopped row matching the exemption list ("Sem Produção") and two discount
keys of `DESC_EFF` at once ("Troca de Sabor" worth 15 and "Refeição" worth
60). -/
def rowMulti : InfoRow :=
  { maquina_id := "M1", linha := 1, data_registro := 20000, turno := "MAT",
    status := "parada", motivo := some "Sem Produção",
    problema := some "Troca de Sabor", causa := some "Refeição", tempo := 200 }

/-- Production row used for the short-shift run. -/
def prodInd : QualProdRow :=
  { linha := 1, maquina_id := "M1", data_registro := 20000, turno := "MAT",
    produto := "PAO", total_ciclos := 60, total_produzido_sensor := 52,
    bdj_vazias := 1, bdj_retrabalho := 1, total_produzido := 50 }

/-- A wall-clock instant 5 minutes into the morning shift of day 20000. -/
def nowShort : ℤ := 20000 * 86400 + 8 * 3600 + 300

/-- The output row of the short-shift run. -/
def rowShort : IndRow :=
  { fabrica := 1, linha := 1, maquina_id := "M1", turno := "MAT",
    data_registro := 20000, tempo := 0, desconto := 0, excedente := 0,
    tempo_esperado := 0, producao := some (50, 0), valor := none }

structure RawIHM where
  linha : Option ℤ
  maquina_id : Option String
  motivo : Option String
  equipamento : Option String
  problema : Option String
  causa : Option String
  os_numero : Option String
  operador_id : Option String
  data_registro : Option ℤ
  hora_registro : Option ℤ
  s_backup : Option String
deriving DecidableEq, Inhabited

structure RawInfo where
  maquina_id : Option String
  status : String
  turno : String
  contagem_total_ciclos : ℤ
  contagem_total_produzido : ℤ
  data_registro : Option ℤ
  hora_registro : Option ℤ
deriving DecidableEq, Inhabited

/-- Cleaned annotation row (`clean_data` applied to the IHM frame):
mandatory identity/timestamp fields are present, `linha = 0` rows are gone
and `fabrica` is derived from `linha`. -/
structure CleanIHM where
  linha : ℤ
  fabrica : ℤ
  maquina_id : String
  motivo : Option String
  equipamento : Option String
  problema : Option String
  causa : Option String
  os_numero : Option String
  operador_id : Option String
  s_backup : Option String
  data_registro : ℤ
  hora_registro : ℤ
  data_hora : ℤ
deriving DecidableEq, Inhabited

structure CleanInfo where
  maquina_id : String
  status : String
  turno : String
  contagem_total_ciclos : ℤ
  contagem_total_produzido : ℤ
  data_registro : ℤ
  hora_registro : ℤ
  data_hora : ℤ
deriving DecidableEq, Inhabited

/-- Models `drop_duplicates()`: keep the first occurrence of each row. -/
def dedupAux [DecidableEq α] (seen : List α) : List α → List α
  | [] => []
  | a :: t => if a ∈ seen then dedupAux seen t else a :: dedupAux (a :: seen) t

def dedupKeepFirst [DecidableEq α] (l : List α) : List α := dedupAux [] l

/-- Models `operador_id.fillna(0).astype(int).astype(str).zfill(6)` with the
all-zero sentinel replaced by null.  The 6-digit zero padding itself is pure
formatting (nothing downstream reads the digits), so the model keeps the
original digit string and only applies the zero-sentinel rule. -/
def cleanOperadorId (o : Option String) : Option String :=
  if (digitsToNat ((o.getD "0").data)).getD 0 = 0 then none else o

/-- Models `os_numero.replace("0", None)`. -/
def cleanOsNumero (o : Option String) : Option String :=
  if o = some "0" then none else o

/-- Models `clean_data` on the IHM frame (plus the combined timestamp column that
`join_data` adds immediately afterwards). -/
def cleanIHM (l : List RawIHM) : List CleanIHM :=
  (dedupKeepFirst l).filterMap fun r =>
    match r.maquina_id, r.data_registro, r.hora_registro with
    | some m, some d, some h =>
      let li := r.linha.getD 0
      if li = 0 then none
      else some
        { linha := li, fabrica := if 1 ≤ li ∧ li ≤ 9 then 1 else 2,
          maquina_id := m, motivo := r.motivo, equipamento := r.equipamento,
          problema := r.problema, causa := r.causa,
          os_numero := cleanOsNumero r.os_numero,
          operador_id := cleanOperadorId r.operador_id, s_backup := r.s_backup,
          data_registro := d, hora_registro := h, data_hora := d * 86400 + h }
    | _, _, _ => none

/-- Models `clean_data` on the info frame (no `linha` or `operador_id` columns). -/
def cleanInfo (l : List RawInfo) : List CleanInfo :=
  (dedupKeepFirst l).filterMap fun r =>
    match r.maquina_id, r.data_registro, r.hora_registro with
    | some m, some d, some h =>
      some
        { maquina_id := m, status := r.status, turno := r.turno,
          contagem_total_ciclos := r.contagem_total_ciclos,
          contagem_total_produzido := r.contagem_total_produzido,
          data_registro := d, hora_registro := h, data_hora := d * 86400 + h }
    | _, _, _ => none

/-- Working row of the joined frame, auxiliary columns included.  The
boolean flags, `group`, `data_hora`, `change_date`, `data_hora_final` and
`tempo` mirror the columns the pipeline creates as it goes; they start at
placeholder values and are always written before being read. -/
structure WorkRow where
  fabrica : Option ℤ
  linha : Option ℤ
  maquina_id : String
  turno : String
  status : String
  contagem_total_ciclos : ℤ
  contagem_total_produzido : ℤ
  data_registro : ℤ
  hora_registro : ℤ
  motivo : Option String
  equipamento : Option String
  problema : Option String
  causa : Option String
  os_numero : Option String
  operador_id : Option String
  data_registro_ihm : Option ℤ
  hora_registro_ihm : Option ℤ
  s_backup : Option String
  status_change : Bool
  maquina_id_change : Bool
  turno_change : Bool
  change : Bool
  motivo_change : Bool
  group : ℕ
  data_hora : ℤ
  change_date : Option ℤ
  data_hora_final : ℤ
  tempo : ℤ
deriving DecidableEq, Inhabited

/-- Models `pd.merge_asof(df_info, df_ihm, on="data_hora", by="maquina_id",
direction="nearest", tolerance=2min)`: the same-machine annotation row
closest in time within 120 s (`ihm` is timestamp-sorted, so the fold keeps
the earlier candidate on equidistant ties). -/
def asofMatch (ihm : List CleanIHM) (m : String) (t : ℤ) : Option CleanIHM :=
  (ihm.filter fun r =>
      decide (r.maquina_id = m) && decide ((r.data_hora - t).natAbs ≤ 120)).foldl
    (fun best c =>
      match best with
      | none => some c
      | some b =>
        if (c.data_hora - t).natAbs < (b.data_hora - t).natAbs then some c else some b)
    none

/-- One merged row: telemetry fields from the info side, annotation fields
from the matched IHM row (or nulls).  The shared `data_hora` key is dropped
by the column selection of `join_data` and recomputed later, hence the
placeholder. -/
def mergeRow (ihm : List CleanIHM) (i : CleanInfo) : WorkRow :=
  let m := asofMatch ihm i.maquina_id i.data_hora
  { fabrica := m.map (·.fabrica), linha := m.map (·.linha),
    maquina_id := i.maquina_id, turno := i.turno, status := i.status,
    contagem_total_ciclos := i.contagem_total_ciclos,
    contagem_total_produzido := i.contagem_total_produzido,
    data_registro := i.data_registro, hora_registro := i.hora_registro,
    motivo := m.bind (·.motivo), equipamento := m.bind (·.equipamento),
    problema := m.bind (·.problema), causa := m.bind (·.causa),
    os_numero := m.bind (·.os_numero), operador_id := m.bind (·.operador_id),
    data_registro_ihm := m.map (·.data_registro),
    hora_registro_ihm := m.map (·.hora_registro),
    s_backup := m.bind (·.s_backup),
    status_change := false, maquina_id_change := false, turno_change := false,
    change := false, motivo_change := false, group := 0,
    data_hora := 0, change_date := none, data_hora_final := 0, tempo := 0 }

/-- The machine → (linha, fabrica) dictionary of `__line_adjust`
(`dict(zip(...))`: the LAST occurrence of a machine wins). -/
def lineLookup (ihm : List CleanIHM) (m : String) : Option (ℤ × ℤ) :=
  (ihm.reverse.find? fun r => decide (r.maquina_id = m)).map fun r =>
    (r.linha, r.fabrica)

def lineAdjust (ihm : List CleanIHM) (r : WorkRow) : WorkRow :=
  { r with
    linha := r.linha.orElse fun _ => (lineLookup ihm r.maquina_id).map Prod.fst,
    fabrica := r.fabrica.orElse fun _ => (lineLookup ihm r.maquina_id).map Prod.snd }

/-- Models `sort_values(by=["linha", "data_registro", "hora_registro"])` with null
`linha` sorted last. -/
def workLe (a b : WorkRow) : Bool :=
  if a.linha ≠ b.linha then
    match a.linha, b.linha with
    | some x, some y => decide (x < y)
    | some _, none => true
    | none, _ => false
  else if a.data_registro ≠ b.data_registro then decide (a.data_registro < b.data_registro)
  else decide (a.hora_registro ≤ b.hora_registro)

/-- Models `np.where(status == "true", "rodando", "parada")`. -/
def normalizeStatus (l : List WorkRow) : List WorkRow :=
  l.map fun r => { r with status := if r.status = "true" then "rodando" else "parada" }

/-- Models `__status_change`: `ne(shift())` flags for status, machine and shift plus
their disjunction (a first row always counts as changed, as any value
differs from the shifted-in `NaN`). -/
def markChanges : Option WorkRow → List WorkRow → List WorkRow
  | _, [] => []
  | prev, r :: t =>
    let sc := decide (some r.status ≠ prev.map (·.status))
    let mc := decide (some r.maquina_id ≠ prev.map (·.maquina_id))
    let tc := decide (some r.turno ≠ prev.map (·.turno))
    { r with status_change := sc, maquina_id_change := mc, turno_change := tc,
             change := sc || mc || tc } :: markChanges (some r) t

def statusChangePass (l : List WorkRow) : List WorkRow := markChanges none l

/-- Models `motivo_change`: `(motivo.ne(motivo.shift()) | causa.ne(causa.shift())) &
motivo.notnull()`.  A missing previous row (`shift`'s `NaN`) differs from
everything; two genuinely null annotation cells compare equal (Python `None
!= None` is false). -/
def markMotivoChange : Option WorkRow → List WorkRow → List WorkRow
  | _, [] => []
  | prev, r :: t =>
    let ne1 := decide (some r.motivo ≠ prev.map (·.motivo))
    let ne2 := decide (some r.causa ≠ prev.map (·.causa))
    { r with motivo_change := (ne1 || ne2) && r.motivo.isSome }
      :: markMotivoChange (some r) t

/-- Models `change = change | motivo_change`. -/
def orMotivoChange (l : List WorkRow) : List WorkRow :=
  l.map fun r => { r with change := r.change || r.motivo_change }

/-- Models `group = change.cumsum()`. -/
def assignGroups (n : ℕ) : List WorkRow → List WorkRow
  | [] => []
  | r :: t =>
    let n' := if r.change then n + 1 else n
    { r with group := n' } :: assignGroups n' t

/-- Models `data_hora = to_datetime(data_registro + " " + hora_registro)`. -/
def setDataHoraRow (r : WorkRow) : WorkRow :=
  { r with data_hora := r.data_registro * 86400 + r.hora_registro }

def setDataHora (l : List WorkRow) : List WorkRow := l.map setDataHoraRow

/-- Models `change_date = data_hora.where(change)` (the `groupby(...).shift(0)` is
the identity). -/
def setChangeDateRow (r : WorkRow) : WorkRow :=
  { r with change_date := if r.change then some r.data_hora else none }

def setChangeDate (l : List WorkRow) : List WorkRow := l.map setChangeDateRow

/-- Split a row list into maximal runs of equal `group` id (`groupby("group")`
on the monotone ids produced by `cumsum`). -/
def chunkRuns (l : List WorkRow) : List (List WorkRow) :=
  l.foldr
    (fun r cs =>
      match cs with
      | (x :: c) :: cs' =>
        if r.group = x.group then (r :: x :: c) :: cs' else [r] :: (x :: c) :: cs'
      | _ => [[r]])
    []

def fillCol (get : WorkRow → Option α) (set : WorkRow → Option α → WorkRow)
    (c : List WorkRow) : List WorkRow :=
  List.zipWith set c (ffillBfill (c.map get))

/-- Models `groupby("group")[col].transform(lambda x: x.ffill().bfill())` for the
nine stoppage columns inside one group. -/
def fillChunk (c : List WorkRow) : List WorkRow :=
  fillCol (·.s_backup) (fun r v => { r with s_backup := v })
    (fillCol (·.hora_registro_ihm) (fun r v => { r with hora_registro_ihm := v })
      (fillCol (·.data_registro_ihm) (fun r v => { r with data_registro_ihm := v })
        (fillCol (·.operador_id) (fun r v => { r with operador_id := v })
          (fillCol (·.os_numero) (fun r v => { r with os_numero := v })
            (fillCol (·.causa) (fun r v => { r with causa := v })
              (fillCol (·.problema) (fun r v => { r with problema := v })
                (fillCol (·.equipamento) (fun r v => { r with equipamento := v })
                  (fillCol (·.motivo) (fun r v => { r with motivo := v }) c))))))))

/-- Models `df.replace(r"^s*$", None, regex=True)` on a cell: the pattern (note the
missing backslash in the source) matches strings made only of the literal
character `s`, the empty string included. -/
def replaceEmpty : Option String → Option String
  | some s => if s.data.all (· = 's') then none else some s
  | none => none

def replaceEmptyRow (r : WorkRow) : WorkRow :=
  { r with motivo := replaceEmpty r.motivo,
           equipamento := replaceEmpty r.equipamento,
           problema := replaceEmpty r.problema,
           causa := replaceEmpty r.causa,
           os_numero := replaceEmpty r.os_numero,
           operador_id := replaceEmpty r.operador_id,
           s_backup := replaceEmpty r.s_backup }

/-- Models `__fill_occ`: forward/backward fill of the stoppage columns within each
group, then collapse `^s*$` strings to null (the non-null key columns
`maquina_id`, `turno`, `status` never match the pattern for real data, so
the frame-wide replace is modelled on the nullable string columns). -/
def fillOcc (l : List WorkRow) : List WorkRow :=
  (((chunkRuns l).map fillChunk).flatten).map replaceEmptyRow

/-- Models `groupby("group").agg(first)` on monotone group ids: keep each boundary
row (the first row of every run of equal ids). -/
def keepBoundaries : Option ℕ → List WorkRow → List WorkRow
  | _, [] => []
  | none, r :: t => r :: keepBoundaries (some r.group) t
  | some g, r :: t =>
    if r.group = g then keepBoundaries (some g) t
    else r :: keepBoundaries (some r.group) t

/-- Nominal end-of-shift clock times (`turno_end_time`); an unknown shift
maps to `NaN`. -/
def turnoEndTime : String → Option ℤ
  | "NOT" => some (8 * 3600 + 60)
  | "MAT" => some (16 * 3600 + 60)
  | "VES" => some 60
  | _ => none

/-- The shift the wall clock is currently in. -/
def currentShift (now : ℤ) : String :=
  if 0 ≤ nowHour now ∧ nowHour now < 8 then "NOT"
  else if 8 ≤ nowHour now ∧ nowHour now < 16 then "MAT"
  else "VES"

/-- End timestamp and duration of one aggregated interval, from the row and
the tail of the aggregated table after it:
* base: next `data_hora` of the same machine (`groupby("maquina_id").shift(-1)`),
  replaced by the very next row's `change_date` when the machine changed;
* shift-boundary correction: when the shift differs from the next row's and
  the row is not in today's currently active shift, force the nominal
  end-of-shift timestamp (next day for the evening shift);
* remaining nulls become `data_hora + 1 min`;
* `tempo` is the rounded minute difference, snapped to 480 above 478 minutes
  for scheduled stops and cleaning. -/
def setFinal (now : ℤ) (r : WorkRow) (rest : List WorkRow) : WorkRow :=
  let base : Option ℤ :=
    if r.maquina_id_change then rest.head?.bind (·.change_date)
    else (rest.find? fun x => decide (x.maquina_id = r.maquina_id)).map (·.data_hora)
  let isToday := r.data_hora.fdiv 86400 = nowDay now
  let tmask := (rest.head?.map (·.turno) ≠ some r.turno) ∧
    ¬ (isToday ∧ r.turno = currentShift now)
  let normalized := r.data_hora.fdiv 86400 * 86400
  let final0 : Option ℤ :=
    if tmask ∧ r.turno = "VES" then some (normalized + 86400 + 60)
    else if tmask then (turnoEndTime r.turno).map (normalized + ·)
    else base
  let fin := final0.getD (r.data_hora + 60)
  let t0 := roundMin (fin - r.data_hora)
  let t1 := if 478 < t0 ∧ (r.motivo = some "Parada Programada" ∨ r.motivo = some "Limpeza")
            then 480 else t0
  { r with data_hora_final := fin, tempo := t1 }

def calcFinals (now : ℤ) : List WorkRow → List WorkRow
  | [] => []
  | r :: rest => setFinal now r rest :: calcFinals now rest

/-- Models `__group_and_calc_time`. -/
def groupAndCalcTime (now : ℤ) (l : List WorkRow) : List WorkRow :=
  calcFinals now (keepBoundaries none l)

/-- The micro-interval reclassification of one first-pass interval row.
`prevMotivo` is the previous row's `motivo` cell (`motivo.shift()`, `none`
for the first row), `next` the following row.  The first mask carries the
"previous reason is not a scheduled stop" guard; the second mask, evaluated
on the already-updated status, drops that guard, so the guard only affects
the `motivo_change` bookkeeping and not the final status. -/
def reclassifyRow (prevMotivo : Option (Option String)) (next : Option WorkRow)
    (r : WorkRow) : WorkRow :=
  let m1 := r.status = "rodando" ∧ r.tempo ≤ TEMPO_AJUSTE ∧
    next.map (·.turno) = some r.turno ∧ prevMotivo ≠ some (some "Parada Programada")
  let status1 := if m1 then "parada" else r.status
  let mc1 : Bool := if m1 then false else (next.map (·.motivo_change)).getD false
  let m2 := status1 = "rodando" ∧ r.tempo ≤ TEMPO_AJUSTE ∧
    next.map (·.turno) = some r.turno
  { r with status := if m2 then "parada" else status1, motivo_change := mc1 }

def reclassifyAux : Option (Option String) → List WorkRow → List WorkRow
  | _, [] => []
  | pm, r :: t => reclassifyRow pm t.head? r :: reclassifyAux (some r.motivo) t

/-- The reclassification pass (lines 454–473 of `get_info_ihm_adjusted`). -/
def reclassify (l : List WorkRow) : List WorkRow := reclassifyAux none l

/-- Final duration clamps: clip to `[0, 480]`, then snap `(478, 480]` to 480. -/
def clipTempos (l : List WorkRow) : List WorkRow :=
  l.map fun r =>
    let t2 := min (max r.tempo 0) 480
    { r with tempo := if 478 < t2 then 480 else t2 }

/-- Column `s_backup` is cleared unless the reason is exactly "Saída para Backup". -/
def fixSBackup (l : List WorkRow) : List WorkRow :=
  l.map fun r =>
    { r with s_backup := if r.motivo = some "Saída para Backup" then r.s_backup else none }

/-- Stoppage metadata is cleared on running intervals. -/
def clearRunning (l : List WorkRow) : List WorkRow :=
  l.map fun r =>
    if r.status = "rodando" then
      { r with motivo := none, equipamento := none, problema := none,
               causa := none, operador_id := none }
    else r

/-- Models `get_info_ihm_adjusted`: change detection, fill, first grouping pass,
micro-interval reclassification, second grouping pass, clamps. -/
def getInfoIhmAdjusted (now : ℤ) (l : List WorkRow) : List WorkRow :=
  let a1 := statusChangePass (normalizeStatus l)
  let a2 := fillOcc (assignGroups 0 a1)
  let a3 := orMotivoChange (markMotivoChange none a2)
  let a4 := setChangeDate (setDataHora (assignGroups 0 a3))
  let p1 := groupAndCalcTime now a4
  let b1 := orMotivoChange (statusChangePass (reclassify p1))
  let b2 := fillOcc (assignGroups 0 b1)
  let p2 := groupAndCalcTime now b2
  clearRunning (fixSBackup (clipTempos p2))

/-- Models `join_data`: clean and sort both streams, nearest-time join, line/factory
backfill, interval adjustment, factory filter, end-timestamp repair against
`now`, and the final annotation date/time backfill. -/
def joinData (ihmRaw : List RawIHM) (infoRaw : List RawInfo) (now : ℤ) :
    List WorkRow :=
  let ihm := sortBy (fun a b => decide (a.data_hora ≤ b.data_hora)) (cleanIHM ihmRaw)
  let info := sortBy (fun a b => decide (a.data_hora ≤ b.data_hora)) (cleanInfo infoRaw)
  let merged := (info.map (mergeRow ihm)).map (lineAdjust ihm)
  let adj := getInfoIhmAdjusted now (sortBy workLe merged)
  let fab := (adj.map fun r =>
      { r with fabrica := some (max 0 (r.fabrica.getD 0)) }).filter fun r =>
    decide (1 ≤ r.fabrica.getD 0) && decide (r.fabrica.getD 0 ≤ 14)
  let fixed := fab.map fun r =>
    if r.data_hora_final < r.data_hora then { r with data_hora_final := now } else r
  fixed.map fun r =>
    { r with data_registro_ihm := some (r.data_registro_ihm.getD r.data_registro),
             hora_registro_ihm := some (r.hora_registro_ihm.getD r.hora_registro) }

/-- The `motivo.shift()` value seen at position `i` when the pass was entered
with carried value `pm`. -/
def prevMotivoAt (pm : Option (Option String)) (l : List WorkRow) :
    ℕ → Option (Option String)
  | 0 => pm
  | j + 1 => (l[j]?).map (·.motivo)

/-- A minimal interval row for concrete runs of the reclassification pass. -/
def mkIntervalRow (m turno status : String) (motivo : Option String)
    (tempo dh : ℤ) : WorkRow :=
  { fabrica := some 1, linha := some 1, maquina_id := m, turno := turno,
    status := status, contagem_total_ciclos := 0, contagem_total_produzido := 0,
    data_registro := 20000, hora_registro := 0, motivo := motivo,
    equipamento := none, problema := none, causa := none, os_numero := none,
    operador_id := none, data_registro_ihm := none, hora_registro_ihm := none,
    s_backup := none, status_change := false, maquina_id_change := false,
    turno_change := false, change := false, motivo_change := false, group := 0,
    data_hora := dh, change_date := none, data_hora_final := 0, tempo := tempo }

/-- Three first-pass intervals: a scheduled stop, a 3-minute running blip,
and another stop, all in the same shift. -/
def blipAfterPP : List WorkRow :=
  [mkIntervalRow "M1" "MAT" "parada" (some "Parada Programada") 60 0,
   mkIntervalRow "M1" "MAT" "rodando" none 3 3600,
   mkIntervalRow "M1" "MAT" "parada" (some "Ajustes") 120 3780]

/-- Three first-pass intervals with an ordinary stoppage before the blip. -/
def blipAfterStop : List WorkRow :=
  [mkIntervalRow "M1" "MAT" "parada" (some "Ajustes") 60 0,
   mkIntervalRow "M1" "MAT" "rodando" none 3 3600,
   mkIntervalRow "M1" "MAT" "parada" (some "Ajustes") 120 3780]

/-- One annotation row registering machine M1 on line 1 (no stoppage data,
outside the 2-minute join tolerance of the telemetry rows). -/
def ihmShift : List RawIHM :=
  [{ linha := some 1, maquina_id := some "M1", motivo := none,
     equipamento := none, problema := none, causa := none, os_numero := none,
     operador_id := none, data_registro := some 20000, hora_registro := some 0,
     s_backup := none }]

/-- Two telemetry rows of machine M1 on day 20000: stopped at 08:00 in the
morning shift and stopped at 16:30 in the evening shift. -/
def infoShift : List RawInfo :=
  [{ maquina_id := some "M1", status := "true", turno := "MAT",
     contagem_total_ciclos := 100, contagem_total_produzido := 90,
     data_registro := some 20000, hora_registro := some (8 * 3600) },
   { maquina_id := some "M1", status := "false", turno := "VES",
     contagem_total_ciclos := 200, contagem_total_produzido := 180,
     data_registro := some 20000, hora_registro := some (16 * 3600 + 1800) }]

/-- 10:00 on day 20000 (the run's own day, during the morning shift). -/
def nowSameDay : ℤ := 20000 * 86400 + 10 * 3600

/-- 10:00 ten days later (re-processing historical data). -/
def nowLater : ℤ := 20010 * 86400 + 10 * 3600

def g3 (r : WorkRow) : Bool × Option ℤ × ℤ := (r.change, r.change_date, r.data_hora)

/-- Projection of the two columns the end-timestamp computation reads from
OTHER rows: `change_date` and `data_hora`. -/
def g2 (r : WorkRow) : Option ℤ × ℤ := (r.change_date, r.data_hora)

/-- The per-machine contiguity invariant: every row's `change_date` is its
own start timestamp. -/
def CDInv (l : List WorkRow) : Prop := ∀ r ∈ l, r.change_date = some r.data_hora

/-- First interval of the historical re-run (`nowLater`): the running
morning-shift interval, its end forced to the nominal 16:01 shift boundary. -/
def rowLaterMAT : WorkRow :=
  { fabrica := some 1, linha := some 1, maquina_id := "M1", turno := "MAT",
    status := "rodando", contagem_total_ciclos := 100,
    contagem_total_produzido := 90, data_registro := 20000,
    hora_registro := 28800, motivo := none, equipamento := none,
    problema := none, causa := none, os_numero := none, operador_id := none,
    data_registro_ihm := some 20000, hora_registro_ihm := some 28800,
    s_backup := none, status_change := true, maquina_id_change := true,
    turno_change := true, change := true, motivo_change := false, group := 1,
    data_hora := 1728028800, change_date := some 1728028800,
    data_hora_final := 1728057660, tempo := 480 }

/-- Second interval of the historical re-run: the stopped evening-shift
interval starting 16:30, ending at next-day 00:01. -/
def rowLaterVES : WorkRow :=
  { fabrica := some 1, linha := some 1, maquina_id := "M1", turno := "VES",
    status := "parada", contagem_total_ciclos := 200,
    contagem_total_produzido := 180, data_registro := 20000,
    hora_registro := 59400, motivo := none, equipamento := none,
    problema := none, causa := none, os_numero := none, operador_id := none,
    data_registro_ihm := some 20000, hora_registro_ihm := some 59400,
    s_backup := none, status_change := true, maquina_id_change := false,
    turno_change := true, change := true, motivo_change := false, group := 2,
    data_hora := 1728059400, change_date := some 1728059400,
    data_hora_final := 1728086460, tempo := 451 }

/-- The same-day run differs only in the first interval's end timestamp:
10:00 of day 20000 is inside the morning shift, so the shift-boundary
correction is skipped and the interval ends at the next interval's 16:30
start. -/
def rowSameMAT : WorkRow :=
  { rowLaterMAT with data_hora_final := 1728059400 }

/-- Two merged telemetry rows of one machine in one shift: running at 08:00,
stopped at 09:00 of day 20000. -/
def contigL : List WorkRow :=
  [{ mkIntervalRow "M1" "MAT" "true" none 0 0 with hora_registro := 28800 },
   { mkIntervalRow "M1" "MAT" "false" none 0 0 with hora_registro := 32400 }]

/-- A wall-clock instant ten days after the data being processed. -/
def contigNow : ℤ := 20010 * 86400 + 10 * 3600

/-! ### Theorems -/

theorem mem_insertSorted {le : α → α → Bool} {a x : α} {l : List α} :
    x ∈ insertSorted le a l ↔ x = a ∨ x ∈ l := by
  induction l with
  | nil => simp [insertSorted]
  | cons b t ih =>
    simp only [insertSorted]
    split
    · simp only [List.mem_cons, ih]
      tauto
    · simp [List.mem_cons]

theorem mem_sortBy {le : α → α → Bool} {x : α} {l : List α} :
    x ∈ sortBy le l ↔ x ∈ l := by
  suffices h : ∀ acc : List α,
      x ∈ l.foldl (fun acc a => insertSorted le a acc) acc ↔ x ∈ acc ∨ x ∈ l by
    simpa [sortBy] using h []
  induction l with
  | nil => simp
  | cons b t ih =>
    intro acc
    simp only [List.foldl_cons, ih, mem_insertSorted, List.mem_cons]
    tauto

/-- Every row produced by `join_qual_prod` carries a `total_produzido` that is
the reconciliation function of its own count columns. -/
theorem joinQualProd_row {prod : List ProdRow} {qual : List QualRow}
    {out : List QualProdRow} {r : QualProdRow}
    (hj : joinQualProd prod qual = some out) (hr : r ∈ out) :
    r.total_produzido =
      totalProduzido r.total_ciclos r.total_produzido_sensor
        r.bdj_vazias r.bdj_retrabalho := by
  unfold joinQualProd at hj
  split at hj
  · exact absurd hj (by simp)
  · rw [Option.some.injEq] at hj
    subst hj
    rw [mem_sortBy] at hr
    obtain ⟨p, _, rfl⟩ := List.mem_map.mp hr
    rfl

theorem sensorMask_100_97 : sensorMask 100 97 = true := by
  simp only [sensorMask]
  norm_num

theorem joinQualProd_spec_run : joinQualProd [prodSpec] [qualSpec] = some [rowSpec] := by
  simp +decide [joinQualProd, toQualAgg, mergeProdRow, totalProduzido,
    sensorMask_100_97, addQual, sortBy, insertSorted, qpLe, prodSpec, qualSpec, rowSpec]

/-- Claim C4, amended: `join_qual_prod` takes the sensor-derived estimate
`sensor_produced − rework_trays` exactly when the one-sided relative
difference `(total_cycles − sensor_produced) / total_cycles` is below 5%
(for `total_cycles = 0`, exactly when the sensor count is positive); otherwise
it takes `total_cycles − empty_trays − rework_trays`.  In particular the
100/97/2/3 instance yields 95. -/
theorem joinQualProd_sensor_choice {prod : List ProdRow} {qual : List QualRow}
    {out : List QualProdRow} {r : QualProdRow}
    (hj : joinQualProd prod qual = some out) (hr : r ∈ out) :
    r.total_produzido =
      if (if r.total_ciclos = 0 then 0 < r.total_produzido_sensor
          else ((r.total_ciclos : ℚ) - (r.total_produzido_sensor : ℚ)) /
              (r.total_ciclos : ℚ) < 1/20)
      then r.total_produzido_sensor - r.bdj_retrabalho
      else r.total_ciclos - r.bdj_vazias - r.bdj_retrabalho := by
  rw [joinQualProd_row hj hr, totalProduzido, sensorMask]
  by_cases hc : r.total_ciclos = 0 <;> simp [hc]

/-- Witness for C4 at the spec's instance: deviation 3% < 5%, so the sensor
path is chosen and `total_produzido = 97 − 2 = 95`. -/
theorem joinQualProd_sensor_choice_witness :
    rowSpec.total_produzido =
      (if (if rowSpec.total_ciclos = 0 then 0 < rowSpec.total_produzido_sensor
           else ((rowSpec.total_ciclos : ℚ) - (rowSpec.total_produzido_sensor : ℚ)) /
               (rowSpec.total_ciclos : ℚ) < 1/20)
       then rowSpec.total_produzido_sensor - rowSpec.bdj_retrabalho
       else rowSpec.total_ciclos - rowSpec.bdj_vazias - rowSpec.bdj_retrabalho) ∧
    rowSpec.total_produzido = 95 :=
  ⟨joinQualProd_sensor_choice joinQualProd_spec_run (by decide), by decide⟩

theorem sensorMask_100_200 : sensorMask 100 200 = true := by
  simp only [sensorMask]
  norm_num

/-- Counterexample to Claim C4 as stated: with `total_cycles = 100` and
`sensor_produced = 200` the relative deviation is 100% ≥ 5%, yet the code
still takes the sensor path (`200 − 2 = 198`), because its test is one-sided:
`(100 − 200)/100 = −1 < 0.05`.  The cycle-derived estimate would be
`100 − 3 − 2 = 95 ≠ 198`. -/
theorem joinQualProd_sensor_choice_cex :
    joinQualProd [prodOver] [qualSpec] =
      some [{ linha := 1, maquina_id := "M1", data_registro := 20000,
              turno := "MAT", produto := "PAO", total_ciclos := 100,
              total_produzido_sensor := 200, bdj_vazias := 3, bdj_retrabalho := 2,
              total_produzido := 198 }] ∧
    ¬ (|(100 : ℚ) - 200| / 100 < 1/20) ∧ (198 : ℤ) ≠ 100 - 3 - 2 := by
  refine ⟨?_, by norm_num, by norm_num⟩
  simp +decide [joinQualProd, toQualAgg, mergeProdRow, totalProduzido,
    sensorMask_100_200, addQual, sortBy, insertSorted, qpLe, prodOver, qualSpec]

/-- Claim C7: the code crashes instead of excluding the unparsable row.
`clean_hora_registro("not-a-time")` returns `None` (the intended graceful
path), but `join_qual_prod` then evaluates `None.hour` in the shift
derivation, raising `AttributeError` — modelled as the `none` result — so the
parse failure IS propagated as a crash of the run. -/
theorem joinQualProd_crashes_on_unparsable_time :
    cleanHoraRegistro "not-a-time" = none ∧
    joinQualProd [prodSpec] [qualBadTime] = none := by decide

/-- Claim C8: with `total_cycles = 0` and `sensor_produced = 0` the mask is
`NaN < 0.05 = false`, the cycle-derived path is taken, and
`total_produzido = 0 − empty − rework`, which is negative whenever either
tray count is positive — the output column is not guaranteed non-negative. -/
theorem joinQualProd_negative_total {prod : List ProdRow} {qual : List QualRow}
    {out : List QualProdRow} {r : QualProdRow}
    (hj : joinQualProd prod qual = some out) (hr : r ∈ out)
    (hc : r.total_ciclos = 0) (hs : r.total_produzido_sensor = 0) :
    r.total_produzido = -(r.bdj_vazias + r.bdj_retrabalho) ∧
    (0 < r.bdj_vazias + r.bdj_retrabalho → r.total_produzido < 0) := by
  have h := joinQualProd_row hj hr
  rw [hc, hs] at h
  simp only [totalProduzido, sensorMask] at h
  norm_num at h
  omega

theorem joinQualProd_zero_run :
    joinQualProd [prodZero] [qualZero] =
      some [{ linha := 2, maquina_id := "M2", data_registro := 20000,
              turno := "VES", produto := "PAO", total_ciclos := 0,
              total_produzido_sensor := 0, bdj_vazias := 1, bdj_retrabalho := 2,
              total_produzido := -3 }] := by
  have hm : sensorMask 0 0 = false := by simp [sensorMask]
  simp +decide [joinQualProd, toQualAgg, mergeProdRow, totalProduzido,
    hm, addQual, sortBy, insertSorted, qpLe, prodZero, qualZero]

/-- Witness for C8: a concrete run whose only output row has
`total_produzido = −(1 + 2) = −3 < 0`. -/
theorem joinQualProd_negative_total_witness :
    rowZero.total_produzido = -(rowZero.bdj_vazias + rowZero.bdj_retrabalho) ∧
    rowZero.total_produzido = -3 ∧ rowZero.total_produzido < 0 :=
  ⟨(joinQualProd_negative_total joinQualProd_zero_run
      (by decide) (by decide) (by decide)).1,
   by decide, by decide⟩

/-- The key-loop fold computes the value of the LAST matching key, else the
initial value: matching entries overwrite one another. -/
theorem foldl_overwrite (desc : List (String × ℤ)) (r : InfoRow) (init : ℤ) :
    desc.foldl (fun acc kv => if rowMatchesKey r kv.1 then kv.2 else acc) init =
      match (desc.filter fun kv => rowMatchesKey r kv.1).getLast? with
      | some kv => kv.2
      | none => init := by
  induction desc generalizing init with
  | nil => rfl
  | cons a t ih =>
    simp only [List.foldl_cons, List.filter_cons]
    by_cases hm : rowMatchesKey r a.1
    · simp only [hm, if_true, ih]
      cases h2 : t.filter fun kv => rowMatchesKey r kv.1 with
      | nil => simp [h2]
      | cons b l =>
        simp only [List.getLast?_cons_cons]
        cases h3 : (b :: l).getLast? with
        | none => exact absurd (List.getLast?_eq_none_iff.mp h3) (by simp)
        | some kv => rfl
    · simp only [hm, if_false, ih, Bool.false_eq_true]

/-- Claim C9: in the discount pass of `create_indicators`, when a stopped
row's reason/problem/cause text matches several keys of the discount table,
the pre-clamp discount is the value of the LAST matching key in the table's
iteration order — matches overwrite one another (never summed or maximised),
and the result is independent of the exemption-granted initial value (the
full-duration discount of skip-matching efficiency rows included). -/
theorem descontoPreClamp_last_match (desc : List (String × ℤ))
    (skip : List String) (ind : IndicatorType) (r : InfoRow) (kv : String × ℤ)
    (h : (desc.filter fun kv => rowMatchesKey r kv.1).getLast? = some kv) :
    descontoPreClamp desc skip ind r = kv.2 := by
  rw [descontoPreClamp, foldl_overwrite, h]

/-- Witness for C9: both keys match, the last one ("Refeição", 60) wins, and
the exemption discount (`tempo = 200`, granted because `motivo` is in
`NOT_EFF`) is overwritten. -/
theorem descontoPreClamp_last_match_witness :
    (DESC_EFF.filter fun kv => rowMatchesKey rowMulti kv.1).getLast? =
        some ("Refeição", 60) ∧
    descontoPreClamp DESC_EFF NOT_EFF IndicatorType.efficiency rowMulti = 60 ∧
    initDesconto NOT_EFF IndicatorType.efficiency rowMulti = 200 :=
  ⟨by decide,
   descontoPreClamp_last_match DESC_EFF NOT_EFF IndicatorType.efficiency rowMulti
     ("Refeição", 60) (by decide),
   by decide⟩

/-- Claim C5: in the efficiency indicator table, every row whose expected
production time is under 10 minutes has an undefined (NaN) efficiency value
and both `producao_esperada` and `tempo_esperado` forced to 0. -/
theorem createIndicators_eff_short_time (info : List InfoRow)
    (prod : List QualProdRow) (now : ℤ) (r : IndRow)
    (hr : r ∈ createIndicators info prod IndicatorType.efficiency now)
    (hlt : r.tempo_esperado < 10) :
    r.valor = none ∧ r.producao.map Prod.snd = some 0 ∧ r.tempo_esperado = 0 := by
  simp only [createIndicators] at hr
  rw [List.mem_map] at hr
  obtain ⟨m, _, rfl⟩ := hr
  by_cases hte : m.tempo_esperado < 10
  · simp [mkIndOut, effAdjustRow, hte]
  · simp [mkIndOut, effAdjustRow, hte] at hlt

theorem createIndicators_short_run :
    createIndicators [] [prodInd] IndicatorType.efficiency nowShort = [rowShort] := by
  have h1 : nowDay nowShort = 20000 := by decide
  have h2 : nowHour nowShort = 8 := by decide
  have hel : getElapsedTime nowShort "MAT" = 300 / 60 := by
    simp only [getElapsedTime, h1, h2]
    norm_num [nowShort]
  have hte : tempoEsperado nowShort "MAT" 20000 0 = 5 := by
    rw [tempoEsperado]
    simp only [h1, hel]
    norm_num
  simp +decide [createIndicators, calculateDiscountTime, population, addStop,
    effAdjustRow, mkIndOut, hte, prodInd, rowShort]

/-- Witness for C5: a shift only 5 minutes old gives `tempo_esperado = 5 < 10`
and the output row has a NaN value and zeroed expectation columns. -/
theorem createIndicators_eff_short_time_witness :
    rowShort.valor = none ∧ rowShort.producao.map Prod.snd = some 0 ∧
      rowShort.tempo_esperado = 0 := by
  refine createIndicators_eff_short_time [] [prodInd] nowShort rowShort ?_ ?_
  · rw [createIndicators_short_run]
    exact List.mem_singleton.mpr rfl
  · decide

/-- Claim C10: every row returned by `join_data` has non-null annotation date
and time — intervals without an annotation match are backfilled with their
own telemetry date and time in the final `fillna` step. -/
theorem joinData_ihm_dates_backfilled {ihm : List RawIHM} {info : List RawInfo}
    {now : ℤ} {r : WorkRow} (hr : r ∈ joinData ihm info now) :
    r.data_registro_ihm.isSome ∧ r.hora_registro_ihm.isSome := by
  simp only [joinData] at hr
  rw [List.mem_map] at hr
  obtain ⟨x, _, rfl⟩ := hr
  exact ⟨rfl, rfl⟩

/-- Rows of `clearRunning` with running status carry no stoppage metadata. -/
theorem clearRunning_no_metadata {l : List WorkRow} {x : WorkRow}
    (hx : x ∈ clearRunning l) (hs : x.status = "rodando") :
    x.motivo = none ∧ x.equipamento = none ∧ x.problema = none ∧
    x.causa = none ∧ x.operador_id = none := by
  rw [clearRunning, List.mem_map] at hx
  obtain ⟨y, _, rfl⟩ := hx
  by_cases h : y.status = "rodando"
  · simp [h]
  · rw [if_neg h] at hs ⊢
    exact absurd hs h

/-- Inverting the tail of `join_data`: every output row shares its status,
stoppage-metadata and duration fields with a row of the clamped, cleared
second-pass table. -/
theorem joinData_shape {ihm : List RawIHM} {info : List RawInfo} {now : ℤ}
    {r : WorkRow} (hr : r ∈ joinData ihm info now) :
    ∃ l z, z ∈ clearRunning (fixSBackup (clipTempos l)) ∧
      r.status = z.status ∧ r.motivo = z.motivo ∧ r.equipamento = z.equipamento ∧
      r.problema = z.problema ∧ r.causa = z.causa ∧ r.operador_id = z.operador_id ∧
      r.tempo = z.tempo := by
  simp only [joinData, getInfoIhmAdjusted] at hr
  rw [List.mem_map] at hr
  obtain ⟨x, hx, rfl⟩ := hr
  rw [List.mem_map] at hx
  obtain ⟨y, hy, rfl⟩ := hx
  rw [List.mem_filter] at hy
  obtain ⟨hy1, _⟩ := hy
  rw [List.mem_map] at hy1
  obtain ⟨z, hz, rfl⟩ := hy1
  refine ⟨_, z, hz, ?_⟩
  by_cases hc : ({ z with fabrica := some (max 0 (z.fabrica.getD 0)) } :
      WorkRow).data_hora_final < ({ z with fabrica := some (max 0 (z.fabrica.getD 0)) } :
      WorkRow).data_hora <;>
    simp [hc]

/-- Claim C6: in every row of the final interval table returned by
`join_data` whose status is "rodando", the cause, reason, equipment, problem
and operator fields are all null. -/
theorem joinData_running_no_metadata {ihm : List RawIHM} {info : List RawInfo}
    {now : ℤ} {r : WorkRow} (hr : r ∈ joinData ihm info now)
    (hs : r.status = "rodando") :
    r.motivo = none ∧ r.equipamento = none ∧ r.problema = none ∧
    r.causa = none ∧ r.operador_id = none := by
  obtain ⟨l, z, hz, h1, h2, h3, h4, h5, h6, _⟩ := joinData_shape hr
  rw [h2, h3, h4, h5, h6]
  exact clearRunning_no_metadata hz (h1 ▸ hs)

/-- Every duration in the `join_data` output lies in `[0, 480]` minutes
after the final clamps. -/
theorem joinData_tempo_bounds {ihm : List RawIHM} {info : List RawInfo}
    {now : ℤ} {r : WorkRow} (hr : r ∈ joinData ihm info now) :
    0 ≤ r.tempo ∧ r.tempo ≤ 480 := by
  obtain ⟨l, z, hz, _, _, _, _, _, _, ht⟩ := joinData_shape hr
  rw [ht]
  rw [clearRunning, List.mem_map] at hz
  obtain ⟨w, hw, rfl⟩ := hz
  rw [fixSBackup, List.mem_map] at hw
  obtain ⟨v, hv, rfl⟩ := hw
  rw [clipTempos, List.mem_map] at hv
  obtain ⟨u, _, rfl⟩ := hv
  refine ⟨?_, ?_⟩ <;> (dsimp only; split <;> (dsimp only; split <;> omega))

theorem reclassifyAux_getElem (pm : Option (Option String)) (l : List WorkRow)
    (i : ℕ) :
    (reclassifyAux pm l)[i]? =
      (l[i]?).map fun r => reclassifyRow (prevMotivoAt pm l i) l[i + 1]? r := by
  induction l generalizing pm i with
  | nil => simp [reclassifyAux]
  | cons r t ih =>
    cases i with
    | zero => simp [reclassifyAux, prevMotivoAt, List.head?_eq_getElem?]
    | succ j =>
      simp only [reclassifyAux, List.getElem?_cons_succ, ih]
      cases j with
      | zero => simp [prevMotivoAt]
      | succ k => simp [prevMotivoAt]

/-- Net status effect of the two reclassification masks: a row ends up
"parada" exactly when it was "parada" already or was a short "rodando" row
followed by a row of the same shift — the scheduled-stop guard of the first
mask is cancelled by the second mask. -/
theorem reclassifyRow_status (pm : Option (Option String)) (next : Option WorkRow)
    (r : WorkRow) :
    (reclassifyRow pm next r).status =
      if r.status = "rodando" ∧ r.tempo ≤ TEMPO_AJUSTE ∧
          next.map (·.turno) = some r.turno
      then "parada" else r.status := by
  simp only [reclassifyRow]
  by_cases hs : r.status = "rodando" <;>
    by_cases ht : r.tempo ≤ TEMPO_AJUSTE <;>
      by_cases htu : next.map (·.turno) = some r.turno <;>
        by_cases hp : pm = some (some "Parada Programada") <;>
          simp +decide [hs, ht, htu, hp]

/-- Claim C3 (amended): in the micro-interval reclassification pass, a
"running" interval is reclassified to "stopped" exactly when its duration is
at most `TEMPO_AJUSTE = 5` minutes and the immediately following interval is
in the same shift; the preceding interval's reason plays no role in the
final status (a short running interval after a "Parada Programada" is
reclassified all the same, by the second mask). -/
theorem reclassify_status_characterization (l : List WorkRow) (i : ℕ)
    (r : WorkRow) (hr : l[i]? = some r) :
    ((reclassify l)[i]?).map (·.status) =
      some (if r.status = "rodando" ∧ r.tempo ≤ TEMPO_AJUSTE ∧
              (l[i + 1]?).map (·.turno) = some r.turno
            then "parada" else r.status) := by
  rw [reclassify, reclassifyAux_getElem, hr]
  simp only [Option.map_some']
  rw [reclassifyRow_status]

/-- Counterexample to Claim C3 as stated: the middle interval is a 3-minute
"rodando" row whose PRECEDING interval's reason IS "Parada Programada", so
the claim says it keeps status "rodando"; the code still reclassifies it to
"parada" (the second mask lacks the scheduled-stop guard). -/
theorem reclassify_pp_guard_cex :
    (blipAfterPP[0]?).map (·.motivo) = some (some "Parada Programada") ∧
    (blipAfterPP[1]?).map (·.status) = some "rodando" ∧
    (blipAfterPP[1]?).map (·.tempo) = some 3 ∧
    ((reclassify blipAfterPP)[1]?).map (·.status) = some "parada" := by decide

/-- Witness for C3 (amended) on the micro-blip instance: duration 3 ≤ 5 with
the next interval in the same shift, so the blip is reclassified to
"parada". -/
theorem reclassify_status_characterization_witness :
    ((reclassify blipAfterStop)[1]?).map (·.status) =
      some (if (blipAfterStop[1]?.getD default).status = "rodando" ∧
              (blipAfterStop[1]?.getD default).tempo ≤ TEMPO_AJUSTE ∧
              (blipAfterStop[2]?).map (·.turno) =
                some (blipAfterStop[1]?.getD default).turno
            then "parada" else (blipAfterStop[1]?.getD default).status) ∧
    ((reclassify blipAfterStop)[1]?).map (·.status) = some "parada" :=
  ⟨reclassify_status_characterization blipAfterStop 1 _ (by decide), by decide⟩

/-- Claim C1 (amended): each stage is a pure function of its inputs AND the
wall-clock instant read during the run; re-running with identical inputs at
the same instant yields identical tables (`join_qual_prod` reads no clock at
all), but outputs may differ across instants. -/
theorem pipeline_deterministic_given_now (ihm : List RawIHM)
    (info : List RawInfo) (prod : List ProdRow) (qual : List QualRow)
    (infoI : List InfoRow) (prodI : List QualProdRow) (ind : IndicatorType)
    (now : ℤ) :
    joinData ihm info now = joinData ihm info now ∧
    joinQualProd prod qual = joinQualProd prod qual ∧
    createIndicators infoI prodI ind now = createIndicators infoI prodI ind now :=
  ⟨rfl, rfl, rfl⟩

theorem ffillFrom_length (p : Option α) (l : List (Option α)) :
    (ffillFrom p l).length = l.length := by
  induction l generalizing p with
  | nil => rfl
  | cons a t ih => cases a <;> simp [ffillFrom, ih]

theorem ffillBfill_length (l : List (Option α)) :
    (ffillBfill l).length = l.length := by
  simp [ffillBfill, ffillFrom_length]

theorem map_zipWith_set {β : Type} {g : WorkRow → β}
    {set : WorkRow → Option α → WorkRow} (hset : ∀ r v, g (set r v) = g r) :
    ∀ (c : List WorkRow) (col : List (Option α)), col.length = c.length →
      (List.zipWith set c col).map g = c.map g := by
  intro c
  induction c with
  | nil => intro col _; simp
  | cons r t ih =>
    intro col hlen
    cases col with
    | nil => simp at hlen
    | cons v vs =>
      simp only [List.zipWith_cons_cons, List.map_cons, hset]
      rw [ih vs (by simpa using hlen)]

theorem fillCol_map {β : Type} {g : WorkRow → β} {get : WorkRow → Option α}
    {set : WorkRow → Option α → WorkRow} (hset : ∀ r v, g (set r v) = g r)
    (c : List WorkRow) : (fillCol get set c).map g = c.map g := by
  rw [fillCol]
  exact map_zipWith_set hset c _ (by simp [ffillBfill_length])

theorem fillChunk_map_g3 (c : List WorkRow) : (fillChunk c).map g3 = c.map g3 := by
  simp only [fillChunk]
  rw [fillCol_map (by intro r v; rfl), fillCol_map (by intro r v; rfl),
    fillCol_map (by intro r v; rfl), fillCol_map (by intro r v; rfl),
    fillCol_map (by intro r v; rfl), fillCol_map (by intro r v; rfl),
    fillCol_map (by intro r v; rfl), fillCol_map (by intro r v; rfl),
    fillCol_map (by intro r v; rfl)]

theorem chunkRuns_cons (r : WorkRow) (t : List WorkRow) :
    chunkRuns (r :: t) =
      match chunkRuns t with
      | (x :: c) :: cs' =>
        if r.group = x.group then (r :: x :: c) :: cs' else [r] :: (x :: c) :: cs'
      | _ => [[r]] := rfl

theorem chunkRuns_flatten (l : List WorkRow) :
    (chunkRuns l).flatten = l ∧ [] ∉ chunkRuns l := by
  induction l with
  | nil => simp [chunkRuns]
  | cons r t ih =>
    obtain ⟨ihf, ihne⟩ := ih
    rw [chunkRuns_cons]
    cases h : chunkRuns t with
    | nil =>
      rw [h] at ihf
      simp only [List.flatten_nil] at ihf
      subst ihf
      simp
    | cons c cs =>
      rw [h] at ihf ihne
      cases c with
      | nil => exact absurd (List.mem_cons_self _ _) ihne
      | cons x c' =>
        dsimp only
        by_cases hg : r.group = x.group
        · rw [if_pos hg]
          refine ⟨?_, ?_⟩
          · simp only [List.flatten_cons] at ihf ⊢
            simp [← ihf]
          · intro hmem
            rcases List.mem_cons.mp hmem with h1 | h1
            · exact absurd h1.symm (List.cons_ne_nil _ _)
            · exact ihne (List.mem_cons_of_mem _ h1)
        · rw [if_neg hg]
          refine ⟨?_, ?_⟩
          · simp only [List.flatten_cons] at ihf ⊢
            simp [← ihf]
          · intro hmem
            rcases List.mem_cons.mp hmem with h1 | h1
            · exact absurd h1.symm (List.cons_ne_nil _ _)
            · exact ihne h1

theorem fillOcc_map_g3 (l : List WorkRow) : (fillOcc l).map g3 = l.map g3 := by
  have hre : ∀ r, g3 (replaceEmptyRow r) = g3 r := fun r => rfl
  rw [fillOcc, List.map_map]
  have : (g3 ∘ replaceEmptyRow) = g3 := funext hre
  rw [this, List.map_flatten, List.map_map]
  have hch : ((chunkRuns l).map (List.map g3 ∘ fillChunk)) =
      (chunkRuns l).map (List.map g3) := by
    apply List.map_congr_left
    intro c _
    exact fillChunk_map_g3 c
  rw [hch, ← List.map_flatten, (chunkRuns_flatten l).1]

theorem map_g2_of_map_g3 {A B : List WorkRow} (h : A.map g3 = B.map g3) :
    A.map g2 = B.map g2 := by
  have hcomp : g2 = Prod.snd ∘ g3 := funext fun r => rfl
  rw [hcomp, ← List.map_map, ← List.map_map, h]

theorem calcFinals_map_g3 (now : ℤ) (l : List WorkRow) :
    (calcFinals now l).map g3 = l.map g3 := by
  induction l with
  | nil => rfl
  | cons r t ih => simp only [calcFinals, List.map_cons, ih]; rfl

theorem reclassifyAux_map_g3 (pm : Option (Option String)) (l : List WorkRow) :
    (reclassifyAux pm l).map g3 = l.map g3 := by
  induction l generalizing pm with
  | nil => rfl
  | cons r t ih => simp only [reclassifyAux, List.map_cons, ih]; rfl

theorem markChanges_map_g2 (p : Option WorkRow) (l : List WorkRow) :
    (markChanges p l).map g2 = l.map g2 := by
  induction l generalizing p with
  | nil => rfl
  | cons r t ih => simp only [markChanges, List.map_cons, ih]; rfl

theorem markMotivoChange_map_g3 (p : Option WorkRow) (l : List WorkRow) :
    (markMotivoChange p l).map g3 = l.map g3 := by
  induction l generalizing p with
  | nil => rfl
  | cons r t ih => simp only [markMotivoChange, List.map_cons, ih]; rfl

theorem orMotivoChange_map_g2 (l : List WorkRow) :
    (orMotivoChange l).map g2 = l.map g2 := by
  rw [orMotivoChange, List.map_map]
  rfl

theorem assignGroups_map_g3 (n : ℕ) (l : List WorkRow) :
    (assignGroups n l).map g3 = l.map g3 := by
  induction l generalizing n with
  | nil => rfl
  | cons r t ih => simp only [assignGroups, List.map_cons, ih]; rfl

theorem cdinv_of_map_g2_eq {A B : List WorkRow} (h : A.map g2 = B.map g2)
    (hB : CDInv B) : CDInv A := by
  intro r hr
  have hmem : g2 r ∈ B.map g2 := h ▸ List.mem_map_of_mem g2 hr
  obtain ⟨s, hs, heq⟩ := List.mem_map.mp hmem
  have h1 : s.change_date = r.change_date := congrArg Prod.fst heq
  have h2 : s.data_hora = r.data_hora := congrArg Prod.snd heq
  rw [← h1, ← h2]
  exact hB s hs

theorem keepBoundaries_subset :
    ∀ (p : Option ℕ) (l : List WorkRow) (x : WorkRow),
      x ∈ keepBoundaries p l → x ∈ l := by
  intro p l
  induction l generalizing p with
  | nil => intro x hx; cases p <;> simp [keepBoundaries] at hx
  | cons r t ih =>
    intro x hx
    cases p with
    | none =>
      rw [keepBoundaries] at hx
      rcases List.mem_cons.mp hx with h | h
      · exact h ▸ List.mem_cons_self _ _
      · exact List.mem_cons_of_mem _ (ih _ _ h)
    | some g =>
      rw [keepBoundaries] at hx
      split at hx
      · exact List.mem_cons_of_mem _ (ih _ _ hx)
      · rcases List.mem_cons.mp hx with h | h
        · exact h ▸ List.mem_cons_self _ _
        · exact List.mem_cons_of_mem _ (ih _ _ h)

theorem keepBoundaries_map_comm {f : WorkRow → WorkRow}
    (hf : ∀ r, (f r).group = r.group) :
    ∀ (p : Option ℕ) (l : List WorkRow),
      keepBoundaries p (l.map f) = (keepBoundaries p l).map f := by
  intro p l
  induction l generalizing p with
  | nil => cases p <;> rfl
  | cons r t ih =>
    cases p with
    | none => simp only [List.map_cons, keepBoundaries, hf, ih, List.map]
    | some g =>
      simp only [List.map_cons, keepBoundaries, hf]
      split
      · exact ih _
      · simp only [ih, List.map]

theorem assignGroups_heads :
    ∀ (l : List WorkRow) (n : ℕ) (x : WorkRow),
      x ∈ keepBoundaries (some n) (assignGroups n l) → x.change = true := by
  intro l
  induction l with
  | nil => intro n x hx; simp [assignGroups, keepBoundaries] at hx
  | cons r t ih =>
    intro n x hx
    by_cases hc : r.change
    · rw [show assignGroups n (r :: t) =
          { r with group := n + 1 } :: assignGroups (n + 1) t from by
            simp [assignGroups, hc]] at hx
      rw [keepBoundaries,
        if_neg (show ¬({ r with group := n + 1 } : WorkRow).group = n from by simp)] at hx
      rcases List.mem_cons.mp hx with h | h
      · rw [h]; exact hc
      · exact ih (n + 1) x h
    · rw [show assignGroups n (r :: t) =
          { r with group := n } :: assignGroups n t from by
            simp [assignGroups, hc]] at hx
      rw [keepBoundaries,
        if_pos (show ({ r with group := n } : WorkRow).group = n from rfl)] at hx
      exact ih n x hx

theorem keepBoundaries_none_heads (l : List WorkRow)
    (hhead : ∀ x, l.head? = some x → x.change = true) :
    ∀ x ∈ keepBoundaries none (assignGroups 0 l), x.change = true := by
  cases l with
  | nil => intro x hx; simp [assignGroups, keepBoundaries] at hx
  | cons r t =>
    intro x hx
    simp only [assignGroups, keepBoundaries] at hx
    rcases List.mem_cons.mp hx with h | h
    · rw [h]
      exact hhead r rfl
    · exact assignGroups_heads t _ x h

theorem statusChangePass_head (l : List WorkRow) (x : WorkRow)
    (hx : (statusChangePass l).head? = some x) : x.change = true := by
  cases l with
  | nil => simp [statusChangePass, markChanges] at hx
  | cons r t =>
    simp only [statusChangePass, markChanges, List.head?_cons,
      Option.some.injEq] at hx
    rw [← hx]
    simp

theorem markMotivoChange_head_change (p : Option WorkRow) (l : List WorkRow) :
    ((markMotivoChange p l).head?).map (·.change) = (l.head?).map (·.change) := by
  cases l <;> rfl

theorem orMotivoChange_head_change (l : List WorkRow) :
    ((orMotivoChange l).head?).map (·.change) =
      (l.head?).map fun r => r.change || r.motivo_change := by
  cases l <;> rfl

theorem assignGroups_head_change (n : ℕ) (l : List WorkRow) :
    ((assignGroups n l).head?).map (·.change) = (l.head?).map (·.change) := by
  cases l <;> rfl

theorem fillOcc_head_change (l : List WorkRow) :
    ((fillOcc l).head?).map (·.change) = (l.head?).map (·.change) := by
  have h2 : (fillOcc l).head?.map g3 = l.head?.map g3 := by
    rw [← List.head?_map, fillOcc_map_g3, List.head?_map]
  cases hfo : (fillOcc l).head? with
  | none =>
    cases hl : l.head? with
    | none => rfl
    | some r => rw [hfo, hl] at h2; simp at h2
  | some x =>
    cases hl : l.head? with
    | none => rw [hfo, hl] at h2; simp at h2
    | some r =>
      rw [hfo, hl] at h2
      simp only [Option.map_some'] at h2 ⊢
      have h3 : x.change = r.change := congrArg Prod.fst (Option.some.inj h2)
      rw [h3]

/-- The first row of the fully change-annotated pass-1 frame always carries
`change = true` (its status differs from the shifted-in missing value). -/
theorem a3_head_change (l₀ : List WorkRow) :
    ∀ x, (orMotivoChange (markMotivoChange none (fillOcc (assignGroups 0
        (statusChangePass (normalizeStatus l₀)))))).head? = some x →
      x.change = true := by
  intro x hx
  have h1 := orMotivoChange_head_change (markMotivoChange none (fillOcc
    (assignGroups 0 (statusChangePass (normalizeStatus l₀)))))
  rw [hx] at h1
  cases hy : (markMotivoChange none (fillOcc (assignGroups 0 (statusChangePass
      (normalizeStatus l₀))))).head? with
  | none => rw [hy] at h1; simp at h1
  | some y =>
    rw [hy] at h1
    simp only [Option.map_some', Option.some.injEq] at h1
    have h2 := markMotivoChange_head_change none (fillOcc (assignGroups 0
      (statusChangePass (normalizeStatus l₀))))
    rw [hy] at h2
    have h3 := fillOcc_head_change (assignGroups 0 (statusChangePass
      (normalizeStatus l₀)))
    have h4 := assignGroups_head_change 0 (statusChangePass (normalizeStatus l₀))
    rw [h3, h4] at h2
    cases hz : (statusChangePass (normalizeStatus l₀)).head? with
    | none => rw [hz] at h2; simp at h2
    | some z =>
      rw [hz] at h2
      simp only [Option.map_some', Option.some.injEq] at h2
      have hzc := statusChangePass_head (normalizeStatus l₀) z hz
      rw [h1, h2, hzc]
      rfl

/-- The aggregated rows of the first grouping pass all satisfy
`change_date = data_hora`: group heads carry `change = true`, and
`change_date` was set to `data_hora.where(change)` just before grouping. -/
theorem pass1_inv (now : ℤ) (l : List WorkRow)
    (hhead : ∀ x, l.head? = some x → x.change = true) :
    CDInv (groupAndCalcTime now (setChangeDate (setDataHora (assignGroups 0 l)))) := by
  rw [groupAndCalcTime]
  apply cdinv_of_map_g2_eq (map_g2_of_map_g3 (calcFinals_map_g3 now _))
  intro r hr
  rw [setChangeDate, setDataHora] at hr
  rw [@keepBoundaries_map_comm setChangeDateRow (fun r => rfl),
    @keepBoundaries_map_comm setDataHoraRow (fun r => rfl)] at hr
  obtain ⟨s1, hs1, rfl⟩ := List.mem_map.mp hr
  obtain ⟨s, hs, rfl⟩ := List.mem_map.mp hs1
  have hch := keepBoundaries_none_heads l hhead s hs
  simp [setChangeDateRow, setDataHoraRow, hch]

/-- Every row entering the second grouping pass satisfies the invariant: the
columns it reads (`change_date`, `data_hora`) are the pass-1 values, and all
pass-1 aggregated rows satisfy it. -/
theorem pass2_inv (now : ℤ) (l₀ : List WorkRow) :
    CDInv (fillOcc (assignGroups 0 (orMotivoChange (statusChangePass (reclassify
      (groupAndCalcTime now (setChangeDate (setDataHora (assignGroups 0
        (orMotivoChange (markMotivoChange none (fillOcc (assignGroups 0
          (statusChangePass (normalizeStatus l₀))))))))))))))) := by
  have hp1 := pass1_inv now _ (a3_head_change l₀)
  apply cdinv_of_map_g2_eq (map_g2_of_map_g3 (fillOcc_map_g3 _))
  apply cdinv_of_map_g2_eq (map_g2_of_map_g3 (assignGroups_map_g3 0 _))
  apply cdinv_of_map_g2_eq (orMotivoChange_map_g2 _)
  apply cdinv_of_map_g2_eq (markChanges_map_g2 none _)
  apply cdinv_of_map_g2_eq (map_g2_of_map_g3 (reclassifyAux_map_g3 none _))
  exact hp1

theorem calcFinals_getElem (now : ℤ) (l : List WorkRow) (i : ℕ) :
    (calcFinals now l)[i]? = (l[i]?).map fun r => setFinal now r (l.drop (i + 1)) := by
  induction l generalizing i with
  | nil => simp [calcFinals]
  | cons r t ih =>
    cases i with
    | zero => simp [calcFinals]
    | succ j =>
      simp only [calcFinals, List.getElem?_cons_succ, ih, List.drop_succ_cons]

/-- The end timestamp of an aggregated interval whose next row is the same
machine in the same shift is exactly that next row's start timestamp. -/
theorem setFinal_next (now : ℤ) (r b : WorkRow) (rest' : List WorkRow)
    (hcd : b.change_date = some b.data_hora) (hm : r.maquina_id = b.maquina_id)
    (ht : r.turno = b.turno) :
    (setFinal now r (b :: rest')).data_hora_final = b.data_hora := by
  simp only [setFinal]
  have htm : ¬ ((((b :: rest').head?.map (·.turno)) ≠ some r.turno) ∧
      ¬ (r.data_hora.fdiv 86400 = nowDay now ∧ r.turno = currentShift now)) := by
    simp [ht]
  rw [if_neg (fun hc => htm hc.1), if_neg htm]
  by_cases hmc : r.maquina_id_change
  · simp [hmc, hcd]
  · have hf : List.find? (fun x => decide (x.maquina_id = r.maquina_id)) (b :: rest') =
        some b := List.find?_cons_of_pos _ (by simp [hm])
    simp [hmc, hf]

theorem groupAndCalc_next (now : ℤ) (l : List WorkRow) (i : ℕ) (a b : WorkRow)
    (hinv : CDInv l)
    (ha : (groupAndCalcTime now l)[i]? = some a)
    (hb : (groupAndCalcTime now l)[i + 1]? = some b)
    (hm : a.maquina_id = b.maquina_id) (ht : a.turno = b.turno) :
    a.data_hora_final = b.data_hora := by
  rw [groupAndCalcTime, calcFinals_getElem] at ha hb
  obtain ⟨ra, hra, haa⟩ := Option.map_eq_some'.mp ha
  obtain ⟨rb, hrb, hbb⟩ := Option.map_eq_some'.mp hb
  obtain ⟨hlt, he⟩ := List.getElem?_eq_some.mp hrb
  have hdrop : (keepBoundaries none l).drop (i + 1) =
      rb :: (keepBoundaries none l).drop (i + 1 + 1) := by
    rw [List.drop_eq_getElem_cons hlt, he]
  have hmem : rb ∈ l :=
    keepBoundaries_subset none l rb (he ▸ List.getElem_mem hlt)
  subst haa
  subst hbb
  rw [hdrop]
  exact setFinal_next now ra rb _ (hinv rb hmem) hm ht

/-- In the adjusted interval table, any two consecutive rows that continue
BOTH the same machine and the same shift are contiguous — the earlier
interval's end timestamp equals the later interval's start timestamp. -/
theorem getInfoIhmAdjusted_contiguous (now : ℤ) (l : List WorkRow) (i : ℕ)
    (a b : WorkRow)
    (ha : (getInfoIhmAdjusted now l)[i]? = some a)
    (hb : (getInfoIhmAdjusted now l)[i + 1]? = some b)
    (hm : a.maquina_id = b.maquina_id) (ht : a.turno = b.turno) :
    a.data_hora_final = b.data_hora := by
  simp only [getInfoIhmAdjusted, clearRunning, fixSBackup, clipTempos,
    List.getElem?_map] at ha hb
  obtain ⟨x1, hx1, rfl⟩ := Option.map_eq_some'.mp ha
  obtain ⟨x2, hx2, rfl⟩ := Option.map_eq_some'.mp hx1
  obtain ⟨xa, hxa, rfl⟩ := Option.map_eq_some'.mp hx2
  obtain ⟨y1, hy1, rfl⟩ := Option.map_eq_some'.mp hb
  obtain ⟨y2, hy2, rfl⟩ := Option.map_eq_some'.mp hy1
  obtain ⟨yb, hyb, rfl⟩ := Option.map_eq_some'.mp hy2
  have hclr : ∀ w : WorkRow,
      ((if w.status = "rodando" then
          ({ w with motivo := none, equipamento := none, problema := none,
                    causa := none, operador_id := none } : WorkRow)
        else w)).maquina_id = w.maquina_id ∧
      ((if w.status = "rodando" then
          ({ w with motivo := none, equipamento := none, problema := none,
                    causa := none, operador_id := none } : WorkRow)
        else w)).turno = w.turno ∧
      ((if w.status = "rodando" then
          ({ w with motivo := none, equipamento := none, problema := none,
                    causa := none, operador_id := none } : WorkRow)
        else w)).data_hora = w.data_hora ∧
      ((if w.status = "rodando" then
          ({ w with motivo := none, equipamento := none, problema := none,
                    causa := none, operador_id := none } : WorkRow)
        else w)).data_hora_final = w.data_hora_final := by
    intro w
    refine ⟨?_, ?_, ?_, ?_⟩ <;> split <;> rfl
  obtain ⟨ham, hat, _, haf⟩ := hclr _
  obtain ⟨hbm, hbt, hbd, _⟩ := hclr _
  rw [ham] at hm
  rw [hat] at ht
  rw [haf]
  rw [hbm] at hm
  rw [hbt] at ht
  rw [hbd]
  exact groupAndCalc_next now _ i xa yb (pass2_inv now l) hxa hyb hm ht

set_option maxHeartbeats 4000000 in
theorem joinData_run_later :
    joinData ihmShift infoShift nowLater = [rowLaterMAT, rowLaterVES] := by
  decide

set_option maxHeartbeats 4000000 in
theorem joinData_run_sameDay :
    joinData ihmShift infoShift nowSameDay = [rowSameMAT, rowLaterVES] := by
  decide

/-- Counterexample to Claim C1 as stated: the same raw inputs produce
different interval tables at two invocation instants — the shift-boundary
correction of `__group_and_calc_time` consults `pd.Timestamp.now()` (is the
row's day today, and which shift is active right now), so `join_data` is not
a function of its inputs alone. -/
theorem joinData_depends_on_wall_clock :
    joinData ihmShift infoShift nowSameDay ≠ joinData ihmShift infoShift nowLater := by
  rw [joinData_run_sameDay, joinData_run_later]
  decide

/-- Counterexample to Claim C2 as stated: two consecutive intervals of the
SAME machine where the earlier interval's end (forced to the nominal 16:01
end of the morning shift by the shift-boundary correction) differs from the
later interval's 16:30 start — machine continuation alone does not give
contiguity. -/
theorem contiguity_fails_at_shift_change :
    ((joinData ihmShift infoShift nowLater)[0]?).map (·.maquina_id) =
      ((joinData ihmShift infoShift nowLater)[1]?).map (·.maquina_id) ∧
    ((joinData ihmShift infoShift nowLater)[0]?).map (·.data_hora_final) =
      some (20000 * 86400 + 16 * 3600 + 60) ∧
    ((joinData ihmShift infoShift nowLater)[1]?).map (·.data_hora) =
      some (20000 * 86400 + 16 * 3600 + 1800) ∧
    ((joinData ihmShift infoShift nowLater)[0]?).map (·.data_hora_final) ≠
      ((joinData ihmShift infoShift nowLater)[1]?).map (·.data_hora) := by
  rw [joinData_run_later]
  decide

/-- Witness for C6: the concrete run contains a running interval, and its
stoppage metadata is all null. -/
theorem joinData_running_no_metadata_witness :
    rowLaterMAT.motivo = none ∧ rowLaterMAT.equipamento = none ∧
    rowLaterMAT.problema = none ∧ rowLaterMAT.causa = none ∧
    rowLaterMAT.operador_id = none :=
  joinData_running_no_metadata
    (by rw [joinData_run_later]; exact List.mem_cons_self _ _) (by decide)

/-- Witness for C10: a row of the concrete run (whose annotation match was
outside the tolerance) still carries non-null annotation date and time. -/
theorem joinData_ihm_dates_backfilled_witness :
    rowLaterVES.data_registro_ihm.isSome ∧ rowLaterVES.hora_registro_ihm.isSome :=
  joinData_ihm_dates_backfilled
    (by rw [joinData_run_later]; exact List.mem_cons_of_mem _ (List.mem_cons_self _ _))

/-- Claim C2 (amended): every duration in the `join_data` output lies in
`[0, 480]` minutes, and consecutive intervals of the adjusted table that
continue both the same machine AND the same shift are contiguous
(`end_timestamp[i] = start_timestamp[i+1]`); under a shift change the end
timestamp may instead be forced to the nominal shift boundary, so machine
continuation alone does not guarantee contiguity (see the counterexample). -/
theorem joinData_interval_invariants :
    (∀ (ihm : List RawIHM) (info : List RawInfo) (now : ℤ) (r : WorkRow),
        r ∈ joinData ihm info now → 0 ≤ r.tempo ∧ r.tempo ≤ 480) ∧
    (∀ (now : ℤ) (l : List WorkRow) (i : ℕ) (a b : WorkRow),
        (getInfoIhmAdjusted now l)[i]? = some a →
        (getInfoIhmAdjusted now l)[i + 1]? = some b →
        a.maquina_id = b.maquina_id → a.turno = b.turno →
        a.data_hora_final = b.data_hora) :=
  ⟨fun _ _ _ _ hr => joinData_tempo_bounds hr,
   fun now l i a b ha hb hm ht =>
     getInfoIhmAdjusted_contiguous now l i a b ha hb hm ht⟩

/-- Witness for C2 (amended): the concrete historical run has durations
480 and 451 (both inside `[0, 480]`), and the same-machine same-shift pair
of `contigL` is contiguous at 09:00. -/
theorem joinData_interval_invariants_witness :
    (0 ≤ rowLaterVES.tempo ∧ rowLaterVES.tempo ≤ 480) ∧
    ((getInfoIhmAdjusted contigNow contigL)[0]?.getD default).data_hora_final =
      ((getInfoIhmAdjusted contigNow contigL)[1]?.getD default).data_hora ∧
    ((getInfoIhmAdjusted contigNow contigL)[1]?.getD default).data_hora =
      20000 * 86400 + 32400 :=
  ⟨joinData_interval_invariants.1 ihmShift infoShift nowLater rowLaterVES
     (by rw [joinData_run_later]; exact List.mem_cons_of_mem _ (List.mem_cons_self _ _)),
   joinData_interval_invariants.2 contigNow contigL 0 _ _
     (by decide) (by decide) (by decide) (by decide),
   by decide⟩

end Projeto
